import Mathlib

/-!
Verification development for the `gnu2-demangler` repository (a Python port of
the GNU v2 C++ symbol demangler from upstream GCC).

The development is a shallow embedding of the Python sources:

* `src/gnu2_demangler/io_util.py`   — cursor/stream helpers (`Cursor`, `readExact`, ...)
* `src/gnu2_demangler/token.py`     — `Token`, `Operator`, `Special` classifiers
* `src/gnu2_demangler/cxx.py`       — the C++ AST (`CxxTerm`, `CxxType`, `CxxSymbol`, ...)
                                      and its declarator printer
* `src/gnu2_demangler/demangler.py` — the recursive-descent demangler engine

Python's mutable parser object (`GNU2Demangler`) is modelled by explicit state
passing: each engine method becomes a function `PState → Cursor → PRes α` where
`PRes` carries either a result or a raised exception, in both cases together
with the parser state and cursor position at the moment of return/raise (Python
exception unwinding keeps all mutations performed before the raise, so errors
must carry the mutated state).  Python exceptions are distinguished by class
(`ValueError` vs `AssertionError` vs `TypeError`), because `demangle` catches
only `ValueError`.  Unbounded recursion/loops take an explicit fuel argument;
running out of fuel produces the distinguished `PyExc.fuel` outcome, which is
never equal to any Python-level outcome (theorems either pick a sufficiently
large concrete fuel, or quantify over fuel).

Two deliberate representation notes, called out where they matter:
* Python `float` literal values (`_demangle_real_value`) are stored as their
  source text instead of an IEEE double; no claim touches real-valued
  template literals.
* `str` values in the AST are represented as `List Char` (`String.data`), so
  that kernel evaluation stays cheap.
-/

namespace Gnu2

/-- Python exception classes that the sources raise or catch.  `demangle`
catches only `ValueError`; the internal handlers (`except Exception` / bare
`except`) catch every class.  `fuel` is a modelling artifact marking fuel
exhaustion; it is distinct from every Python exception. -/
inductive PyExc where
  | valueError (msg : String)
  | assertionError (msg : String)
  | typeError (msg : String)
  | attributeError (msg : String)
  | fuel
deriving DecidableEq, Repr

instance {ε α : Type} [DecidableEq ε] [DecidableEq α] : DecidableEq (Except ε α) :=
  fun x y =>
    match x, y with
    | .ok u, .ok v =>
      if h : u = v then .isTrue (by rw [h])
      else .isFalse (by intro hh; cases hh; exact h rfl)
    | .error u, .error v =>
      if h : u = v then .isTrue (by rw [h])
      else .isFalse (by intro hh; cases hh; exact h rfl)
    | .ok _, .error _ => .isFalse (by intro hh; cases hh)
    | .error _, .ok _ => .isFalse (by intro hh; cases hh)

/-- `True` exactly for `ValueError` — the only class caught by `demangle`. -/
def PyExc.isValueError : PyExc → Bool
  | .valueError _ => true
  | _ => false

/-- Model of an `io.StringIO` over the input: the full character sequence plus
the current offset (`tell`).  `seek` past the end is legal (reads return
nothing there), matching `StringIO`. -/
structure Cursor where
  s : List Char
  pos : Nat
deriving DecidableEq, Repr

/-- The characters from the current position to the end of the buffer. -/
def Cursor.remaining (cur : Cursor) : List Char :=
  cur.s.drop cur.pos

/-- `src.read(size)`: consume up to `size` characters (all of them when
`size < 0`, as for `io.StringIO.read`). -/
def Cursor.read (cur : Cursor) (size : Int) : List Char × Cursor :=
  let value := if size < 0 then cur.remaining else cur.remaining.take size.toNat
  (value, { cur with pos := cur.pos + value.length })

/-- `src.read()`: consume the rest of the buffer. -/
def Cursor.readAll (cur : Cursor) : List Char × Cursor :=
  cur.read (-1)

/-- `src.seek(n)` (absolute). -/
def Cursor.seekTo (cur : Cursor) (n : Nat) : Cursor :=
  { cur with pos := n }

/-- `io_util.peek(src, n, offset)`: up to `n` characters starting at
`pos + offset`, without moving the cursor.  All call sites have
`pos + offset ≥ 0`; the `Int.toNat` clamp is unreachable defensive glue. -/
def peekAt (cur : Cursor) (n : Nat) (offset : Int) : List Char :=
  (cur.s.drop ((cur.pos : Int) + offset).toNat).take n

/-- `io_util.peek_exact(src, n, offset)`: exactly `n` characters or `[]`. -/
def peekExactAt (cur : Cursor) (n : Nat) (offset : Int) : List Char :=
  let string := peekAt cur n offset
  if string.length ≠ n then [] else string

/-- `io_util.bytes_left(src, offset)`.  The result is an `Int` (it can be
negative when `offset` overshoots the end, as in Python). -/
def bytesLeft (cur : Cursor) (offset : Int) : Int :=
  (cur.s.length : Int) - ((cur.pos : Int) + offset)

/-- Scan helper for `lookahead_for_substring`: the loop probes successive
offsets with `peek(n=len(string))` and runs while the probe is nonempty, i.e.
while at least one character remains. -/
def scanSub (needle : List Char) : List Char → Option Nat
  | [] => none
  | c :: rest =>
    if (c :: rest).take needle.length = needle then some 0
    else (scanSub needle rest).map (· + 1)

/-- `io_util.lookahead_for_substring(src, string, base_offset)`: distance from
`pos + base_offset` to the first occurrence of `string`, or `none`. -/
def lookaheadForSubstring (cur : Cursor) (string : List Char) (base_offset : Int) :
    Option Nat :=
  scanSub string (cur.s.drop (((cur.pos : Int) + base_offset).toNat))

/-- Count helper for `lookahead_while`: length of the longest prefix of
characters contained in `chars`. -/
def countWhileMem (chars : List Char) : List Char → Nat
  | [] => 0
  | c :: rest => if c ∈ chars then 1 + countWhileMem chars rest else 0

/-- `io_util.lookahead_while(src, chars, base_offset)`. -/
def lookaheadWhileChars (cur : Cursor) (chars : List Char) (base_offset : Int) : Nat :=
  countWhileMem chars (cur.s.drop (((cur.pos : Int) + base_offset).toNat))

/-- `str.isdecimal()` on the single characters this code feeds it (ASCII
digits). -/
def isDec (c : Char) : Bool :=
  c.isDigit

/-- Numeric value of a run of decimal digits (`int(number_str)`). -/
def digitsToNat (ds : List Char) : Nat :=
  ds.foldl (fun acc c => acc * 10 + (c.toNat - 48)) 0

/-- `io_util.peek_number(src)`: the leading digit run as `(value, length)`, or
`none` when the buffer does not start with a digit. -/
def peekNumber (cur : Cursor) : Option (Nat × Nat) :=
  let ds := cur.remaining.takeWhile isDec
  if ds.isEmpty then none else some (digitsToNat ds, ds.length)

/-! ## The C++ AST (`cxx.py`) -/

/-- `CxxTerm.Kind` (cxx.py).  The `StrEnum` value of each kind (used by
`CxxTerm.__str__` for the plain-token case) is given by `CxxTermKind.valueStr`
below. -/
inductive CxxTermKind where
  | const | volatile | restrict
  | signed | unsigned | complex
  | void
  | bool | char | wideChar | short | int | long | longLong | float | double
  | longDouble
  | pointer | lvalueReference | rvalueReference | array
  | function | qualified | symbolRef
deriving DecidableEq, Repr

namespace CxxTermKind

/-- The `StrEnum` string value of the kind. -/
def valueStr : CxxTermKind → List Char
  | .const => "const".data
  | .volatile => "volatile".data
  | .restrict => "__restrict".data
  | .signed => "signed".data
  | .unsigned => "unsigned".data
  | .complex => "__complex".data
  | .void => "void".data
  | .bool => "bool".data
  | .char => "char".data
  | .wideChar => "wchar_t".data
  | .short => "short".data
  | .int => "int".data
  | .long => "long".data
  | .longLong => "long long".data
  | .float => "float".data
  | .double => "double".data
  | .longDouble => "long double".data
  | .pointer => "*".data
  | .lvalueReference => "&".data
  | .rvalueReference => "&&".data
  | .array => "[]".data
  | .function => "function".data
  | .qualified => "qualified".data
  | .symbolRef => "symbol_ref".data

def isCvQualifier : CxxTermKind → Bool
  | .const | .volatile | .restrict => true
  | _ => false

def isSign : CxxTermKind → Bool
  | .signed | .unsigned => true
  | _ => false

def isComplexKind : CxxTermKind → Bool
  | .complex => true
  | _ => false

def isVoid : CxxTermKind → Bool
  | .void => true
  | _ => false

def isArithmeticTypeSpecifier : CxxTermKind → Bool
  | .signed | .unsigned | .complex => true
  | _ => false

def isBool : CxxTermKind → Bool
  | .bool => true
  | _ => false

def isCharacter : CxxTermKind → Bool
  | .char | .wideChar => true
  | _ => false

def isInteger : CxxTermKind → Bool
  | .char | .short | .int | .long | .longLong => true
  | _ => false

def isReal : CxxTermKind → Bool
  | .float | .double | .longDouble => true
  | _ => false

def isIntegral (k : CxxTermKind) : Bool :=
  k.isInteger || k.isCharacter || k.isBool

def isArithmeticType (k : CxxTermKind) : Bool :=
  k.isIntegral || k.isReal

def isPointer : CxxTermKind → Bool
  | .pointer => true
  | _ => false

def isReference : CxxTermKind → Bool
  | .lvalueReference | .rvalueReference => true
  | _ => false

def isPtrOrRef (k : CxxTermKind) : Bool :=
  k.isPointer || k.isReference

def isArray : CxxTermKind → Bool
  | .array => true
  | _ => false

def isFunction : CxxTermKind → Bool
  | .function => true
  | _ => false

def isQualifiedName : CxxTermKind → Bool
  | .qualified => true
  | _ => false

def isSymbolRef : CxxTermKind → Bool
  | .symbolRef => true
  | _ => false

def isFundType (k : CxxTermKind) : Bool :=
  k.isVoid || k.isArithmeticType || k.isFunction || k.isQualifiedName

end CxxTermKind

/- The mutually-recursive AST of `cxx.py`.

Python notes reflected here:
* `CxxTerm.qualified_name` is annotated `List[CxxName]`, but the engine also
  appends whole `QUALIFIED` `CxxTerm`s to it through duck typing
  (`_demangle_signature` passes its `base_name` — which can be a `CxxTerm`
  from `_gnu_special`/`_demangle_prefix` — to `CxxTerm.add_base_name`).
  List entries are therefore the sum `QualName`.
* `CxxValue.value : Union[int, float, bool, str, CxxTerm]` becomes `PyVal`;
  the `float` case stores the literal's source text (see the header note).
* `CxxTemplate.params` entries are `CxxType`, `CxxValue` or `CxxName`. -/
mutual

inductive CxxName where
  | mk (name : List Char) (template : Option CxxTemplate)

inductive CxxTemplate where
  | mk (params : List TemplParam)

inductive TemplParam where
  | typ (t : CxxType)
  | value (v : CxxValue)
  | nam (n : CxxName)

inductive PyVal where
  | pint (i : Int)
  | preal (text : List Char)
  | pbool (b : Bool)
  | pstr (s : List Char)
  | pterm (t : CxxTerm)

inductive CxxValue where
  | mk (value : PyVal)

inductive QualName where
  | qname (n : CxxName)
  | qterm (t : CxxTerm)

inductive CxxTerm where
  | mk (kind : CxxTermKind) (array_dim : Option Int)
       (function_params : Option (List CxxType)) (function_return : Option CxxType)
       (qualified_name : Option (List QualName)) (symbol_ref : Option CxxSymbol)

inductive CxxType where
  | mk (terms : List CxxTerm)

inductive CxxSymbol where
  | mk (name : CxxTerm) (type : Option CxxType)
       (is_type_info_node is_type_info_func is_vtable is_static : Bool)
       (is_global_constructor is_global_destructor : Bool)
       (is_dll_imported is_virtual_thunk : Bool)
       (vthunk_delta : Option Int)

end

def CxxName.name : CxxName → List Char
  | .mk n _ => n

def CxxName.template : CxxName → Option CxxTemplate
  | .mk _ t => t

def CxxTemplate.params : CxxTemplate → List TemplParam
  | .mk p => p

def CxxValue.value : CxxValue → PyVal
  | .mk v => v

def CxxTerm.kind : CxxTerm → CxxTermKind
  | .mk k _ _ _ _ _ => k

def CxxTerm.array_dim : CxxTerm → Option Int
  | .mk _ d _ _ _ _ => d

def CxxTerm.function_params : CxxTerm → Option (List CxxType)
  | .mk _ _ p _ _ _ => p

def CxxTerm.function_return : CxxTerm → Option CxxType
  | .mk _ _ _ r _ _ => r

def CxxTerm.qualified_name : CxxTerm → Option (List QualName)
  | .mk _ _ _ _ q _ => q

def CxxTerm.symbol_ref : CxxTerm → Option CxxSymbol
  | .mk _ _ _ _ _ s => s

def CxxType.terms : CxxType → List CxxTerm
  | .mk t => t

def CxxSymbol.name : CxxSymbol → CxxTerm
  | .mk n _ _ _ _ _ _ _ _ _ _ => n

def CxxSymbol.type : CxxSymbol → Option CxxType
  | .mk _ t _ _ _ _ _ _ _ _ _ => t

def CxxSymbol.is_type_info_node : CxxSymbol → Bool
  | .mk _ _ b _ _ _ _ _ _ _ _ => b

def CxxSymbol.is_type_info_func : CxxSymbol → Bool
  | .mk _ _ _ b _ _ _ _ _ _ _ => b

def CxxSymbol.is_vtable : CxxSymbol → Bool
  | .mk _ _ _ _ b _ _ _ _ _ _ => b

def CxxSymbol.is_static : CxxSymbol → Bool
  | .mk _ _ _ _ _ b _ _ _ _ _ => b

def CxxSymbol.is_global_constructor : CxxSymbol → Bool
  | .mk _ _ _ _ _ _ b _ _ _ _ => b

def CxxSymbol.is_global_destructor : CxxSymbol → Bool
  | .mk _ _ _ _ _ _ _ b _ _ _ => b

def CxxSymbol.is_dll_imported : CxxSymbol → Bool
  | .mk _ _ _ _ _ _ _ _ b _ _ => b

def CxxSymbol.is_virtual_thunk : CxxSymbol → Bool
  | .mk _ _ _ _ _ _ _ _ _ b _ => b

def CxxSymbol.vthunk_delta : CxxSymbol → Option Int
  | .mk _ _ _ _ _ _ _ _ _ _ d => d

/-- `CxxSymbol.is_global_xtor`. -/
def CxxSymbol.is_global_xtor (s : CxxSymbol) : Bool :=
  s.is_global_constructor || s.is_global_destructor

/-- Replace the `qualified_name` field (used to model in-place mutation). -/
def CxxTerm.withQualifiedName (t : CxxTerm) (q : Option (List QualName)) : CxxTerm :=
  match t with
  | .mk k d p r _ s => .mk k d p r q s

/-- Replace the `function_return` field (used to model in-place mutation in
`_do_type`). -/
def CxxTerm.withFunctionReturn (t : CxxTerm) (r : Option CxxType) : CxxTerm :=
  match t with
  | .mk k d p _ q s => .mk k d p r q s

/-- A `CxxTerm` with only the `kind` populated (the common construction
`CxxTerm(kind=...)`). -/
def mkTerm (k : CxxTermKind) : CxxTerm :=
  .mk k none none none none none

/-- `CxxTerm.make_name`. -/
def CxxTerm.make_name (qualified_name : List QualName) : CxxTerm :=
  .mk .qualified none none none (some qualified_name) none

/-- `CxxTerm.add_base_name` (appends; asserts the term is `QUALIFIED`). -/
def CxxTerm.add_base_name (t : CxxTerm) (name : QualName) : Except PyExc CxxTerm :=
  if ¬ t.kind.isQualifiedName then
    .error (.assertionError "Cannot add base name to CxxTerm with this type!")
  else
    let q := t.qualified_name.getD []
    .ok (t.withQualifiedName (some (q ++ [name])))

/-- `CxxTerm.add_qualifying_name` (prepends). -/
def CxxTerm.add_qualifying_name (t : CxxTerm) (name : QualName) : Except PyExc CxxTerm :=
  if ¬ t.kind.isQualifiedName then
    .error (.assertionError "Cannot add qualifying name to CxxTerm with this type!")
  else
    let q := t.qualified_name.getD []
    .ok (t.withQualifiedName (some (name :: q)))

/-- `CxxTerm.qualify_with`: prepend the other term's names as outer
qualifiers (iterating the reversed list and prepending preserves order). -/
def CxxTerm.qualify_with (t other : CxxTerm) : Except PyExc CxxTerm :=
  if ¬ t.kind.isQualifiedName then
    .error (.assertionError "Cannot add qualifying name to CxxTerm with this type!")
  else if ¬ other.kind.isQualifiedName then
    .error (.assertionError "Cannot qualify name with term of this type!")
  else
    let q := t.qualified_name.getD []
    .ok (t.withQualifiedName (some (other.qualified_name.getD [] ++ q)))

/-- `CxxTerm.base_on`: append the other term's names as the base. -/
def CxxTerm.base_on (t other : CxxTerm) : Except PyExc CxxTerm :=
  if ¬ t.kind.isQualifiedName then
    .error (.assertionError "Cannot add qualifying name to CxxTerm with this type!")
  else if ¬ other.kind.isQualifiedName then
    .error (.assertionError "Cannot qualify name with term of this type!")
  else
    let q := t.qualified_name.getD []
    .ok (t.withQualifiedName (some (q ++ other.qualified_name.getD [])))

/-- `CxxTerm.get_base_name`: the innermost (last) name; asserts the term is
`QUALIFIED` with a truthy (nonempty) name list. -/
def CxxTerm.get_base_name (t : CxxTerm) : Except PyExc QualName :=
  if ¬ t.kind.isQualifiedName then
    .error (.assertionError "Cannot get base name for CxxTerm with this type!")
  else
    match (t.qualified_name.getD []).getLast? with
    | none => .error (.assertionError "Cannot get base name for QUALIFIED CxxTerm with no names!")
    | some q => .ok q

/-- Mutate the last entry of a `QUALIFIED` term's name list (models in-place
mutation of the object returned by `get_base_name`). -/
def CxxTerm.setBaseName (t : CxxTerm) (q : QualName) : CxxTerm :=
  let l := t.qualified_name.getD []
  t.withQualifiedName (some (l.dropLast ++ [q]))

/-- `CxxName.add_template_param`. -/
def CxxName.add_template_param (n : CxxName) (p : TemplParam) : CxxName :=
  match n with
  | .mk s none => .mk s (some (.mk [p]))
  | .mk s (some (.mk ps)) => .mk s (some (.mk (ps ++ [p])))

/-- `.name` attribute access on a `qualified_name` entry.  A `CxxName` has the
attribute; a `CxxTerm` does not (Python raises `AttributeError`). -/
def QualName.nameAttr : QualName → Except PyExc (List Char)
  | .qname n => .ok n.name
  | .qterm _ => .error (.attributeError "CxxTerm object has no attribute name")

/-- Setting `.template` on a `qualified_name` entry.  On a `CxxName` this
writes the dataclass field; on a (non-frozen) `CxxTerm` Python silently
creates a dynamic attribute that no reader ever consults, so the model leaves
the term unchanged. -/
def QualName.setTemplate (q : QualName) (t : Option CxxTemplate) : QualName :=
  match q with
  | .qname (.mk s _) => .qname (.mk s t)
  | .qterm tm => .qterm tm

/-- `CxxType._has_primitive_type_index`: last index whose kind is a
fundamental type. -/
def CxxType.hasPrimitiveTypeIndex (t : CxxType) : Option Nat :=
  go t.terms.length t.terms
where
  /-- Scan from the front remembering the last hit (equivalent to the
  reversed-range search in the source). -/
  go (n : Nat) : List CxxTerm → Option Nat
    | [] => none
    | x :: xs =>
      match go n xs with
      | some i => some (i + 1)
      | none => if x.kind.isFundType then some 0 else none

/-- `CxxType.has_primitive_type`. -/
def CxxType.has_primitive_type (t : CxxType) : Bool :=
  t.hasPrimitiveTypeIndex.isSome

/-- `CxxType.primitive_type` (raises when there is none). -/
def CxxType.primitive_type (t : CxxType) : Except PyExc CxxTerm :=
  match t.terms.reverse.find? (fun tm => tm.kind.isFundType) with
  | some tm => .ok tm
  | none => .error (.assertionError "No primitive type found in CxxType!")

/-- `CxxType.is_ptr_or_ref_type`. -/
def CxxType.is_ptr_or_ref_type (t : CxxType) : Bool :=
  t.terms.any (fun tm => tm.kind.isPtrOrRef)

/-- `CxxSymbol.__post_init__` as a checked constructor: every *direct*
construction site runs these assertions (later field mutation does not). -/
def mkCxxSymbol (name : CxxTerm) (type : Option CxxType)
    (is_type_info_node is_type_info_func is_vtable is_static : Bool)
    (is_global_constructor is_global_destructor : Bool)
    (is_dll_imported is_virtual_thunk : Bool)
    (vthunk_delta : Option Int) : Except PyExc CxxSymbol :=
  let xor_flags : List Bool :=
    [is_type_info_node, is_type_info_func, is_vtable, is_global_constructor,
     is_global_destructor, is_virtual_thunk, is_dll_imported]
  let sym : CxxSymbol :=
    .mk name type is_type_info_node is_type_info_func is_vtable is_static
      is_global_constructor is_global_destructor is_dll_imported is_virtual_thunk
      vthunk_delta
  if xor_flags.any id ∧ (xor_flags.filter id).length > 1 then
    .error (.assertionError "Multiple mutually exclusive flags are set!")
  else if name.kind ≠ CxxTermKind.qualified then
    .error (.assertionError "Symbol name terms must be Kind.QUALIFIED!")
  else if type.isNone ∧ ¬ (is_static || is_vtable || sym.is_global_xtor) then
    .error (.assertionError
      "Symbols must have a type unless they are static data, vtables, or global x-tors!")
  else if is_virtual_thunk ∧ vthunk_delta.isNone then
    .error (.assertionError "Virtual thunks must have delta!")
  else if ¬ is_virtual_thunk ∧ ¬ (vthunk_delta = none ∨ vthunk_delta = some 0) then
    -- `assert not self.vthunk_delta`: a delta of `None` *or* `0` is falsy.
    .error (.assertionError "Non-virtual-thunks should not have delta!")
  else
    .ok sym

/-! ## Token classification (`token.py`) -/

/-- `Token.Kind`.  The Python `StrEnum` also declares `STATIC = "S"`, which is
an *alias* of `SIGNED` (duplicate enum value), so there is no separate
constructor for it. -/
inductive TokKind where
  | unknown | digit | marker
  | const | volatile | restrict
  | unsigned | signed | complex
  | void | longLong | long | int | short | bool | char | longDouble | double
  | float
  | pointer | lvalueReference | rvalueReference | array
  | function | qualified | qualifiedNorem
  | backref | backrefType
  | template | templateGpp | templateTypparm | templateTemparm
  | templateArgBackref1 | templateArgBackref2
  | squangleRepeat | elipses | expression | repeat | underscore
  | fixedWidthInt | unkG | unkM | negate | unkW
deriving DecidableEq, Repr

/-- `Token.Kind(char)` value lookup (single-character enum values only, in
declaration order; the first match wins, which resolves the `"S"` alias to
`SIGNED`).  `none` models the `ValueError` that the `except` in
`Token.from_char` catches. -/
def tokKindOfChar (c : Char) : Option TokKind :=
  if c = 'C' then some .const
  else if c = 'V' then some .volatile
  else if c = 'u' then some .restrict
  else if c = 'U' then some .unsigned
  else if c = 'S' then some .signed
  else if c = 'J' then some .complex
  else if c = 'v' then some .void
  else if c = 'x' then some .longLong
  else if c = 'l' then some .long
  else if c = 'i' then some .int
  else if c = 's' then some .short
  else if c = 'b' then some .bool
  else if c = 'c' then some .char
  else if c = 'w' then some .longDouble
  else if c = 'd' then some .double
  else if c = 'f' then some .float
  else if c = 'p' then some .pointer
  else if c = 'R' then some .lvalueReference
  else if c = 'O' then some .rvalueReference
  else if c = 'A' then some .array
  else if c = 'F' then some .function
  else if c = 'Q' then some .qualified
  else if c = 'K' then some .qualifiedNorem
  else if c = 'B' then some .backref
  else if c = 'T' then some .backrefType
  else if c = 't' then some .template
  else if c = 'H' then some .templateGpp
  else if c = 'Z' then some .templateTypparm
  else if c = 'z' then some .templateTemparm
  else if c = 'X' then some .templateArgBackref1
  else if c = 'Y' then some .templateArgBackref2
  else if c = 'n' then some .squangleRepeat
  else if c = 'e' then some .elipses
  else if c = 'E' then some .expression
  else if c = 'N' then some .repeat
  else if c = '_' then some .underscore
  else if c = 'I' then some .fixedWidthInt
  else if c = 'G' then some .unkG
  else if c = 'M' then some .unkM
  else if c = 'm' then some .negate
  else if c = 'W' then some .unkW
  else none

/-- The marker character set `"$.\0"`. -/
def isMarkerChar (c : Char) : Bool :=
  c = '$' || c = '.' || c = Char.ofNat 0

/-- `Token`: a classified character (`content` is the possibly-empty peeked
string). -/
structure Token where
  kind : TokKind
  content : List Char
deriving DecidableEq, Repr

/-- `Token.from_char` on a possibly-empty peeked string. -/
def Token.from_chars (cs : List Char) : Token :=
  match cs with
  | [c] =>
    match tokKindOfChar c with
    | some k => ⟨k, cs⟩
    | none =>
      if c = 'P' then ⟨.pointer, cs⟩
      else if isMarkerChar c then ⟨.marker, cs⟩
      else if isDec c then ⟨.digit, cs⟩
      else ⟨.unknown, cs⟩
  | _ => ⟨.unknown, cs⟩

namespace Token

def is_cv_quali (t : Token) : Bool :=
  match t.kind with
  | .const | .volatile | .restrict => true
  | _ => false

def is_type_spec (t : Token) : Bool :=
  match t.kind with
  | .unsigned | .signed | .complex => true
  | _ => false

def is_primitive (t : Token) : Bool :=
  match t.kind with
  | .void | .longLong | .long | .int | .short | .bool | .char | .longDouble
  | .double | .float => true
  | _ => false

def is_function (t : Token) : Bool :=
  t.kind = .function

def is_ptr_or_ref (t : Token) : Bool :=
  match t.kind with
  | .pointer | .lvalueReference | .rvalueReference => true
  | _ => false

def is_array (t : Token) : Bool :=
  t.kind = .array

def is_marker (t : Token) : Bool :=
  t.kind = .marker

def is_digit (t : Token) : Bool :=
  t.kind = .digit

def is_qualified (t : Token) : Bool :=
  t.kind = .qualified || t.kind = .qualifiedNorem

def is_template_start (t : Token) : Bool :=
  t.kind = .template || t.kind = .templateGpp

def is_template_backref_parm (t : Token) : Bool :=
  t.kind = .templateArgBackref1 || t.kind = .templateArgBackref2

def is_underscore (t : Token) : Bool :=
  t.kind = .underscore

/-- `Token.__bool__`. -/
def truthy (t : Token) : Bool :=
  t.kind ≠ .unknown

/-- `Token.get_quali_term` (`_QUALI_MAP`). -/
def get_quali_term (t : Token) : CxxTerm :=
  match t.kind with
  | .const => mkTerm .const
  | .volatile => mkTerm .volatile
  | _ => mkTerm .restrict

/-- `Token.get_spec_term` (`_SPEC_MAP`). -/
def get_spec_term (t : Token) : CxxTerm :=
  match t.kind with
  | .unsigned => mkTerm .unsigned
  | .signed => mkTerm .signed
  | _ => mkTerm .complex

/-- `Token.get_quali_spec_term` (only reached with CV qualifiers or type
specifiers at every call site, so the assert is omitted). -/
def get_quali_spec_term (t : Token) : CxxTerm :=
  if t.is_cv_quali then t.get_quali_term else t.get_spec_term

/-- `Token.get_primitive_term` (`_PRIM_MAP`). -/
def get_primitive_term (t : Token) : CxxTerm :=
  match t.kind with
  | .void => mkTerm .void
  | .longLong => mkTerm .longLong
  | .long => mkTerm .long
  | .int => mkTerm .int
  | .short => mkTerm .short
  | .bool => mkTerm .bool
  | .char => mkTerm .char
  | .longDouble => mkTerm .longDouble
  | .double => mkTerm .double
  | _ => mkTerm .float

/-- `Token.get_ptr_ref_term` (`_PTR_REF_MAP`). -/
def get_ptr_ref_term (t : Token) : CxxTerm :=
  match t.kind with
  | .pointer => mkTerm .pointer
  | .lvalueReference => mkTerm .lvalueReference
  | _ => mkTerm .rvalueReference

/-- `Token.peek(src, offset)`. -/
def peek (cur : Cursor) (offset : Int) : Token :=
  Token.from_chars (peekAt cur 1 offset)

/-- `Token.scan_for_marker(src)`. -/
def scan_for_marker (cur : Cursor) : Option Nat :=
  go cur.remaining
where
  /-- Structural scan for the first marker character (`None` at end of
  buffer). -/
  go : List Char → Option Nat
    | [] => none
    | c :: rest =>
      if isMarkerChar c then some 0 else (go rest).map (· + 1)

end Token

/-! ## Operator name resolution (`token.py`, class `Operator`) -/

/-- `Operator.Kind`. -/
inductive OpKind where
  | unknown | typeConv | ansiTypeConv
  | opNew | opDelete | newArr | deleteArr | assign
  | notEqual | equal | greaterEqual | greater | lessEqual | less
  | plus | plusAssign | minus | minusAssign | mul | mulAssign
  | plusUnary | minusUnary
  | mod | modAssign | div | divAssign
  | logAnd | logOr | logNot | inc | dec
  | bwOr | bwOrAssign | bwXor | bwXorAssign | bwAnd | bwAndAssign
  | co | call | shiftLeft | shiftLeftAssign | shiftRight | shiftRightAssign
  | reference | elem | comma | ternary | max | min | rm | sizeOf
deriving DecidableEq, Repr

/-- `Operator.Kind(value)` lookup over every declared enum value. -/
def opKindOfChars (s : List Char) : Option OpKind :=
  if s = "unknown".data then some .unknown
  else if s = "type_conv".data then some .typeConv
  else if s = "ansi_type_conv".data then some .ansiTypeConv
  else if s = "nw".data then some .opNew
  else if s = "dl".data then some .opDelete
  else if s = "vn".data then some .newArr
  else if s = "vd".data then some .deleteArr
  else if s = "as".data then some .assign
  else if s = "ne".data then some .notEqual
  else if s = "eq".data then some .equal
  else if s = "ge".data then some .greaterEqual
  else if s = "gt".data then some .greater
  else if s = "le".data then some .lessEqual
  else if s = "lt".data then some .less
  else if s = "pl".data then some .plus
  else if s = "apl".data then some .plusAssign
  else if s = "mi".data then some .minus
  else if s = "ami".data then some .minusAssign
  else if s = "ml".data then some .mul
  else if s = "aml".data then some .mulAssign
  else if s = "convert".data then some .plusUnary
  else if s = "negate".data then some .minusUnary
  else if s = "md".data then some .mod
  else if s = "amd".data then some .modAssign
  else if s = "dv".data then some .div
  else if s = "adv".data then some .divAssign
  else if s = "aa".data then some .logAnd
  else if s = "oo".data then some .logOr
  else if s = "nt".data then some .logNot
  else if s = "pp".data then some .inc
  else if s = "mm".data then some .dec
  else if s = "or".data then some .bwOr
  else if s = "aor".data then some .bwOrAssign
  else if s = "er".data then some .bwXor
  else if s = "aer".data then some .bwXorAssign
  else if s = "ad".data then some .bwAnd
  else if s = "aad".data then some .bwAndAssign
  else if s = "co".data then some .co
  else if s = "cl".data then some .call
  else if s = "ls".data then some .shiftLeft
  else if s = "als".data then some .shiftLeftAssign
  else if s = "rs".data then some .shiftRight
  else if s = "ars".data then some .shiftRightAssign
  else if s = "rf".data then some .reference
  else if s = "vc".data then some .elem
  else if s = "cm".data then some .comma
  else if s = "cn".data then some .ternary
  else if s = "mx".data then some .max
  else if s = "mn".data then some .min
  else if s = "rm".data then some .rm
  else if s = "sz".data then some .sizeOf
  else none

/-- `Operator._OPERATORS`: rendered spelling of each named operator. -/
def opSpelling : OpKind → List Char
  | .opNew => " new".data
  | .opDelete => " delete".data
  | .newArr => " new[]".data
  | .deleteArr => " delete[]".data
  | .assign => "=".data
  | .notEqual => "!=".data
  | .equal => "==".data
  | .greaterEqual => ">=".data
  | .greater => ">".data
  | .lessEqual => "<=".data
  | .less => "<".data
  | .plus => "+".data
  | .plusAssign => "+=".data
  | .minus => "-".data
  | .minusAssign => "-=".data
  | .mul => "*".data
  | .mulAssign => "*=".data
  | .plusUnary => "+".data
  | .minusUnary => "-".data
  | .mod => "%".data
  | .modAssign => "%=".data
  | .div => "/".data
  | .divAssign => "/=".data
  | .logAnd => "&&".data
  | .logOr => "||".data
  | .logNot => "!".data
  | .inc => "++".data
  | .dec => "--".data
  | .bwOr => "|".data
  | .bwOrAssign => "|=".data
  | .bwXor => "^".data
  | .bwXorAssign => "^=".data
  | .bwAnd => "&".data
  | .bwAndAssign => "&=".data
  | .co => "~".data
  | .call => "()".data
  | .shiftLeft => "<<".data
  | .shiftLeftAssign => "<<=".data
  | .shiftRight => ">>".data
  | .shiftRightAssign => ">>=".data
  | .reference => "->".data
  | .elem => "[]".data
  | .comma => ", ".data
  | .ternary => "?:".data
  | .max => ">?".data
  | .min => "<?".data
  | .rm => "->*".data
  | .sizeOf => "sizeof ".data
  | _ => []

/-- `Operator._OP_ASSIGNS`: base operator → compound-assignment operator.
`none` models the `KeyError` (caught by the enclosing `except`). -/
def opAssignOf : OpKind → Option OpKind
  | .plus => some .plusAssign
  | .minus => some .minusAssign
  | .mul => some .mulAssign
  | .div => some .divAssign
  | .mod => some .modAssign
  | .bwOr => some .bwOrAssign
  | .bwAnd => some .bwAndAssign
  | .bwXor => some .bwXorAssign
  | .shiftLeft => some .shiftLeftAssign
  | .shiftRight => some .shiftRightAssign
  | _ => none

/-- `Operator` (the dataclass wraps just the kind). -/
structure Operator where
  kind : OpKind
deriving DecidableEq, Repr

def Operator.is_unknown (o : Operator) : Bool :=
  o.kind = .unknown

def Operator.is_type_conv (o : Operator) : Bool :=
  o.kind = .typeConv || o.kind = .ansiTypeConv

def Operator.has_known_name (o : Operator) : Bool :=
  ¬ (o.is_unknown || o.is_type_conv)

/-- `Operator.get_name` (only called when `has_known_name` holds). -/
def Operator.get_name (o : Operator) : List Char :=
  "operator".data ++ opSpelling o.kind

/-- Python slice `l[a:b]` (with `0 ≤ a ≤ b`). -/
def sliceChars (l : List Char) (a b : Nat) : List Char :=
  (l.drop a).take (b - a)

/-- `str.isalpha()` restricted to ASCII plus `str.islower()` as used on the
two-letter slice in `from_func_name`. -/
def isAlphaLower (s : List Char) : Bool :=
  ¬ s.isEmpty && s.all (fun c => c.isAlpha) && s.all (fun c => c.isLower)

/-- `Operator.from_func_name`. -/
def Operator.from_func_name (func_name : List Char) : Operator :=
  let is_marked_op :=
    "op".data.isPrefixOf func_name
      && (Token.from_chars (sliceChars func_name 2 3)).is_marker
  let is_type_conv :=
    "type".data.isPrefixOf func_name
      && (Token.from_chars (sliceChars func_name 4 5)).is_marker
  let is_ansi_type_conv := "__op".data.isPrefixOf func_name
  let is_unmarked_op :=
    "__".data.isPrefixOf func_name && isAlphaLower (sliceChars func_name 2 4)
  if is_marked_op then
    let is_assignment := sliceChars func_name 3 10 = "assign_".data
    let remaining := if is_assignment then func_name.drop 10 else func_name.drop 3
    match opKindOfChars remaining with
    | some k =>
      if is_assignment then
        match opAssignOf k with
        | some k2 => ⟨k2⟩
        | none => ⟨.unknown⟩
      else ⟨k⟩
    | none => ⟨.unknown⟩
  else if is_type_conv then ⟨.typeConv⟩
  else if is_ansi_type_conv then ⟨.ansiTypeConv⟩
  else if is_unmarked_op then
    match opKindOfChars (func_name.drop 2) with
    | some k => ⟨k⟩
    | none => ⟨.unknown⟩
  else ⟨.unknown⟩

/-! ## Special prefixes (`token.py`, class `Special`) -/

/-- `Special.Kind`. -/
inductive SpecialKind where
  | unknown | dllImport | dtor | vtable | staticData
  | globalAnonymous | globalCtor | globalDtor
  | vthunk | tinfoNode | tinfoFunc
deriving DecidableEq, Repr

/-- `Special`. -/
structure Special where
  kind : SpecialKind
  content : List Char
deriving DecidableEq, Repr

def Special.is_type_info (sp : Special) : Bool :=
  sp.kind = .tinfoNode || sp.kind = .tinfoFunc

/-- `Special._DATA_CHARS`. -/
def specialDataChars : List Char :=
  "0123456789Qt".data

/-- `Special.peek_for_dllimport`. -/
def Special.peek_for_dllimport (cur : Cursor) : Option Special :=
  let content := peekExactAt cur 6 0
  if content = "_imp__".data || content = "__imp_".data then
    some ⟨.dllImport, content⟩
  else none

/-- `Special._GLOBAL_MAP`. -/
def globalMapOf (c : Char) : Option SpecialKind :=
  if c = 'I' then some .globalCtor
  else if c = 'D' then some .globalDtor
  else if c = 'N' then some .globalAnonymous
  else none

/-- `Special.peek_for_global`. -/
def Special.peek_for_global (cur : Cursor) : Option Special :=
  let content := peekExactAt cur 11 0
  if "_GLOBAL_".data.isPrefixOf content then
    let marked_chunk := content.drop 8
    if (Token.from_chars (sliceChars marked_chunk 0 1)).is_marker
        && (Token.from_chars (sliceChars marked_chunk 2 3)).is_marker then
      match globalMapOf (marked_chunk.getD 1 (Char.ofNat 0)) with
      | some kind => some ⟨kind, content⟩
      | none => none
    else none
  else none

/-- `Special.peek`: classify the special prefix at the cursor. -/
def Special.peek (cur : Cursor) : Special :=
  let content2 := peekExactAt cur 2 0
  if ¬ content2.isEmpty
      && decide (content2.getD 0 (Char.ofNat 0) = '_')
      && decide (content2.getD 1 (Char.ofNat 0) ∈ specialDataChars)
      && (Token.scan_for_marker cur).isSome then
    ⟨.staticData, "_".data⟩
  else
    let content3 := peekExactAt cur 3 0
    if ¬ content3.isEmpty
        && "_".data.isPrefixOf content3
        && decide (content3.getLast? = some '_')
        && (Token.from_chars (sliceChars content3 1 2)).is_marker then
      ⟨.dtor, content3⟩
    else
      let content4 := peekExactAt cur 4 0
      if content4 = "__ti".data then ⟨.tinfoNode, content4⟩
      else if content4 = "__tf".data then ⟨.tinfoFunc, content4⟩
      else if "_vt".data.isPrefixOf content4
          && (Token.from_chars (sliceChars content4 3 4)).is_marker then
        ⟨.vtable, content4⟩
      else
        let content5 := peekExactAt cur 5 0
        if content5 = "__vt_".data then ⟨.vtable, content5⟩
        else
          match Special.peek_for_dllimport cur with
          | some sp => sp
          | none =>
            let content8 := peekExactAt cur 8 0
            if content8 = "__thunk_".data then ⟨.vthunk, content8⟩
            else
              match Special.peek_for_global cur with
              | some sp => sp
              | none => ⟨.unknown, []⟩

/-! ## The declarator printer (`cxx.py`, rendering) -/

/-- `CxxDeclComponent.Kind`. -/
inductive DeclKind where
  | specifierSeq | identifier | pointer | pointerToMember
  | lvalueRef | rvalueRef | array | function
deriving DecidableEq, Repr

namespace DeclKind

def is_pointer : DeclKind → Bool
  | .pointer | .pointerToMember => true
  | _ => false

def is_ref : DeclKind → Bool
  | .lvalueRef | .rvalueRef => true
  | _ => false

def is_specifier_seq : DeclKind → Bool
  | .specifierSeq => true
  | _ => false

def is_ptr_or_ref (k : DeclKind) : Bool :=
  k.is_pointer || k.is_ref

def is_noptr_declarator : DeclKind → Bool
  | .array | .function => true
  | _ => false

end DeclKind

/-- `CxxDeclComponent`.  The dataclass is `frozen`, but its `terms` *list* is
mutable and `__str__` reverses it in place for pointer components; the
rendering functions below therefore return the (possibly mutated) component
alongside the string. -/
structure DeclComp where
  kind : DeclKind
  terms : List CxxTerm

/-- `"sep".join(xs)`. -/
def joinSep (sep : List Char) : List (List Char) → List Char
  | [] => []
  | [x] => x
  | x :: xs => x ++ sep ++ joinSep sep xs

/-- `str(int)` for a Python integer. -/
def intToChars (i : Int) : List Char :=
  if i < 0 then '-' :: Nat.toDigits 10 i.natAbs else Nat.toDigits 10 i.natAbs

/-- The single-quote character (kept out of string literals). -/
def squote : Char :=
  Char.ofNat 39

/-- The bundle of rendering functions at one fuel level.  The mutual
recursion of the source renderers is modelled by iterating `renderStep`
(each call consumes one fuel level); the bundled form keeps kernel
reduction of concrete runs linear. -/
structure RenderFns where
  valueStr : CxxValue → Except PyExc (List Char)
  templateStr : CxxTemplate → Except PyExc (List Char)
  paramStrList : List TemplParam → Except PyExc (List (List Char))
  nameStr : CxxName → Except PyExc (List Char)
  qualNameStr : QualName → Except PyExc (List Char)
  qualNameStrList : List QualName → Except PyExc (List (List Char))
  typeStrList : List CxxType → Except PyExc (List (List Char))
  termStr : CxxTerm → Except PyExc (List Char)
  declCompStrMut : DeclComp → Except PyExc (List Char × DeclComp)
  termStrList : List CxxTerm → Except PyExc (List (List Char))
  declApply : DeclComp → List Char → Option DeclComp → Except PyExc (List Char × DeclComp)
  fromTypeConsumeCv : List CxxTerm → Nat → List CxxTerm → Except PyExc (Nat × List CxxTerm)
  fromTypeLoop : List CxxTerm → Nat → List CxxTerm → List DeclComp → Except PyExc (List DeclComp × List CxxTerm)
  fromType : CxxType → Option CxxTerm → Except PyExc (List DeclComp)
  formatFold : List DeclComp → List Char → Option DeclComp → Except PyExc (List Char)
  typeFormat : CxxType → Option CxxTerm → Except PyExc (List Char)
  typeStr : CxxType → Except PyExc (List Char)

/-- The fuel-exhausted bundle. -/
def renderZero : RenderFns where
  valueStr := fun _ => .error .fuel
  templateStr := fun _ => .error .fuel
  paramStrList := fun _ => .error .fuel
  nameStr := fun _ => .error .fuel
  qualNameStr := fun _ => .error .fuel
  qualNameStrList := fun _ => .error .fuel
  typeStrList := fun _ => .error .fuel
  termStr := fun _ => .error .fuel
  declCompStrMut := fun _ => .error .fuel
  termStrList := fun _ => .error .fuel
  declApply := fun _ _ _ => .error .fuel
  fromTypeConsumeCv := fun _ _ _ => .error .fuel
  fromTypeLoop := fun _ _ _ _ => .error .fuel
  fromType := fun _ _ => .error .fuel
  formatFold := fun _ _ _ => .error .fuel
  typeFormat := fun _ _ => .error .fuel
  typeStr := fun _ => .error .fuel

/-- One step of the renderer family: each body is the source function,
calling the previous level for every (mutually) recursive call. -/
def renderStep (prev : RenderFns) : RenderFns where
  valueStr := fun (v : CxxValue) =>
    match v.value with
    | .pbool b => .ok (if b then "true".data else "false".data)
    | .pstr s => .ok (squote :: s ++ [squote])
    | .pint i => .ok (intToChars i)
    | .preal text => .ok text
    | .pterm t => prev.termStr t
  templateStr := fun (t : CxxTemplate) =>
    match prev.paramStrList t.params with
    | .error e => .error e
    | .ok strs => .ok ('<' :: joinSep ", ".data strs ++ ['>'])
  paramStrList := fun (ps : List TemplParam) =>
    match ps with
    | [] => .ok []
    | p :: rest =>
      let s :=
        match p with
        | .typ t => prev.typeStr t
        | .value v => prev.valueStr v
        | .nam n => prev.nameStr n
      match s with
      | .error e => .error e
      | .ok s =>
        match prev.paramStrList rest with
        | .error e => .error e
        | .ok ss => .ok (s :: ss)
  nameStr := fun (n : CxxName) =>
    match n.template with
    | none => .ok n.name
    | some t =>
      match prev.templateStr t with
      | .error e => .error e
      | .ok ts => .ok (n.name ++ ts)
  qualNameStr := fun (q : QualName) =>
    match q with
    | .qname n => prev.nameStr n
    | .qterm t => prev.termStr t
  qualNameStrList := fun (qs : List QualName) =>
    match qs with
    | [] => .ok []
    | q :: rest =>
      match prev.qualNameStr q with
      | .error e => .error e
      | .ok s =>
        match prev.qualNameStrList rest with
        | .error e => .error e
        | .ok ss => .ok (s :: ss)
  typeStrList := fun (ts : List CxxType) =>
    match ts with
    | [] => .ok []
    | t :: rest =>
      match prev.typeStr t with
      | .error e => .error e
      | .ok s =>
        match prev.typeStrList rest with
        | .error e => .error e
        | .ok ss => .ok (s :: ss)
  termStr := fun (t : CxxTerm) =>
    if t.kind.isArray then
      match t.array_dim with
      | none => .error (.assertionError "array term with no dimension")
      | some d => .ok ('[' :: intToChars d ++ [']'])
    else if t.kind.isFunction then
      match t.function_params with
      | none => .ok "(void)".data
      | some [] => .ok "(void)".data
      | some ps =>
        match prev.typeStrList ps with
        | .error e => .error e
        | .ok ss => .ok ('(' :: joinSep ", ".data ss ++ [')'])
    else if t.kind.isQualifiedName then
      match t.qualified_name with
      | none => .error (.assertionError "qualified term with no names")
      | some [] => .error (.assertionError "qualified term with no names")
      | some qs =>
        match prev.qualNameStrList qs with
        | .error e => .error e
        | .ok ss => .ok (joinSep "::".data ss)
    else if t.kind.isSymbolRef then
      match t.symbol_ref with
      | none => .error (.assertionError "symbol ref term with no symbol")
      | some sym =>
        match prev.termStr sym.name with
        | .error e => .error e
        | .ok s => .ok ('&' :: s)
    else
      .ok t.kind.valueStr
  declCompStrMut := fun (comp : DeclComp) =>
    let comp' :=
      if comp.kind.is_pointer then { comp with terms := comp.terms.reverse } else comp
    match prev.termStrList comp'.terms with
    | .error e => .error e
    | .ok ss => .ok (joinSep " ".data ss, comp')
  termStrList := fun (ts : List CxxTerm) =>
    match ts with
    | [] => .ok []
    | t :: rest =>
      match prev.termStr t with
      | .error e => .error e
      | .ok s =>
        match prev.termStrList rest with
        | .error e => .error e
        | .ok ss => .ok (s :: ss)
  declApply := fun (comp : DeclComp) (cur_decl_content : List Char) (prev_decl : Option DeclComp) =>
    match prev.declCompStrMut comp with
    | .error e => .error e
    | .ok (base_decl, comp') =>
      let prev_is_ptr_or_ref : Bool :=
        match prev_decl with
        | some p => p.kind.is_ptr_or_ref
        | none => false
      let cur :=
        if comp.kind.is_noptr_declarator && prev_is_ptr_or_ref then
          '(' :: cur_decl_content ++ [')']
        else cur_decl_content
      if comp.kind = .identifier then
        if ¬ cur.isEmpty ∨ prev_decl.isSome then
          .error (.assertionError
            "Identifiers can only be printed as the first decl. in a sequence.")
        else .ok (base_decl, comp')
      else if comp.kind.is_ptr_or_ref || comp.kind.is_specifier_seq then
        let extra_space :=
          if comp.kind.is_specifier_seq ∧ prev_decl.isSome then " ".data else []
        .ok (base_decl ++ extra_space ++ cur, comp')
      else
        .ok (cur ++ base_decl, comp')
  fromTypeConsumeCv := fun (terms_queue : List CxxTerm) (i : Nat) (decl_queue : List CxxTerm) =>
    if h : i < terms_queue.length then
      let tm := terms_queue.get ⟨i, h⟩
      if tm.kind.isCvQualifier then
        prev.fromTypeConsumeCv terms_queue (i + 1) (decl_queue ++ [tm])
      else .ok (i, decl_queue)
    else .ok (i, decl_queue)
  fromTypeLoop := fun (terms_queue : List CxxTerm) (i : Nat) (decl_queue : List CxxTerm) (decl : List DeclComp) =>
    if h : i < terms_queue.length then
      let this_term := terms_queue.get ⟨i, h⟩
      let decl_queue := decl_queue ++ [this_term]
      let kc := this_term.kind
      let kind : Option DeclKind :=
        if kc.isPointer then some .pointer
        else if kc.isArray then some .array
        else if kc = .lvalueReference then some .lvalueRef
        else if kc = .rvalueReference then some .rvalueRef
        else if kc.isArithmeticType || kc.isVoid || kc.isQualifiedName then
          some .specifierSeq
        else if kc.isFunction then some .function
        else none
      let next_is_cv : Bool :=
        match terms_queue.get? (i + 1) with
        | some nxt => nxt.kind.isCvQualifier
        | none => false
      let step : Except PyExc (Nat × List CxxTerm) :=
        if kc.isFunction then
          if decide (i + 1 < terms_queue.length) && next_is_cv then
            prev.fromTypeConsumeCv terms_queue (i + 1) decl_queue
          else .ok (i, decl_queue)
        else .ok (i, decl_queue)
      match step with
      | .error e => .error e
      | .ok (i, decl_queue) =>
        match kind with
        | some k =>
          let decl := decl ++ [(⟨k, decl_queue⟩ : DeclComp)]
          let next : Except PyExc (List DeclComp) :=
            if kc.isFunction then
              match this_term.function_return with
              | some ret =>
                match prev.fromType ret none with
                | .error e => .error e
                | .ok comps => .ok (decl ++ comps)
              | none => .ok decl
            else .ok decl
          match next with
          | .error e => .error e
          | .ok decl => prev.fromTypeLoop terms_queue (i + 1) [] decl
        | none => prev.fromTypeLoop terms_queue (i + 1) decl_queue decl
    else .ok (decl, decl_queue)
  fromType := fun (typ : CxxType) (identifier : Option CxxTerm) =>
    let start : Except PyExc (List DeclComp) :=
      match identifier with
      | none => .ok []
      | some idt =>
        if ¬ idt.kind.isQualifiedName then
          .error (.assertionError "Identifier for decl must be qualified name.")
        else .ok [⟨.identifier, [idt]⟩]
    match start with
    | .error e => .error e
    | .ok decl =>
      match prev.fromTypeLoop typ.terms 0 [] decl with
      | .error e => .error e
      | .ok (decl, decl_queue) =>
        if ¬ decl_queue.isEmpty then
          .error (.assertionError
            "Decl. queue not empty after loop ended! Is there a misplaced CV qualifier?")
        else .ok decl
  formatFold := fun (comps : List DeclComp) (result : List Char) (prev_decl : Option DeclComp) =>
    match comps with
    | [] => .ok result
    | comp :: rest =>
      match prev.declApply comp result prev_decl with
      | .error e => .error e
      | .ok (result, comp') => prev.formatFold rest result (some comp')
  typeFormat := fun (typ : CxxType) (identifier : Option CxxTerm) =>
    match prev.fromType typ identifier with
    | .error e => .error e
    | .ok comps => prev.formatFold comps [] none
  typeStr := fun (typ : CxxType) =>
    prev.typeFormat typ none

/-- The renderer family at a given fuel (plain `Nat.rec`). -/
def renderAt (fuel : Nat) : RenderFns :=
  Nat.rec renderZero (fun _ prev => renderStep prev) fuel

/-- `CxxValue.__str__`. -/
def valueStr (fuel : Nat) (v : CxxValue) : Except PyExc (List Char) :=
  (renderAt fuel).valueStr v

/-- `CxxTemplate.__str__`. -/
def templateStr (fuel : Nat) (t : CxxTemplate) : Except PyExc (List Char) :=
  (renderAt fuel).templateStr t

/-- Renders each template parameter (`CxxTemplate.params` holds `CxxType`,
`CxxValue` or `CxxName` entries; the `isinstance(p, CxxTemplate)` arm of the
source can never fire because no `CxxTemplate` is ever stored as a
parameter). -/
def paramStrList (fuel : Nat) (ps : List TemplParam) : Except PyExc (List (List Char)) :=
  (renderAt fuel).paramStrList ps

/-- `CxxName.__str__`. -/
def nameStr (fuel : Nat) (n : CxxName) : Except PyExc (List Char) :=
  (renderAt fuel).nameStr n

/-- `str` on a `qualified_name` entry (a `CxxName` or a duck-typed
`CxxTerm`). -/
def qualNameStr (fuel : Nat) (q : QualName) : Except PyExc (List Char) :=
  (renderAt fuel).qualNameStr q

def qualNameStrList (fuel : Nat) (qs : List QualName) : Except PyExc (List (List Char)) :=
  (renderAt fuel).qualNameStrList qs

def typeStrList (fuel : Nat) (ts : List CxxType) : Except PyExc (List (List Char)) :=
  (renderAt fuel).typeStrList ts

/-- `CxxTerm.__str__`. -/
def termStr (fuel : Nat) (t : CxxTerm) : Except PyExc (List Char) :=
  (renderAt fuel).termStr t

/-- `CxxDeclComponent.__str__`: returns the string *and* the component as left
behind by the in-place `terms_to_print.reverse()` (pointer components come
back with their term list reversed). -/
def declCompStrMut (fuel : Nat) (comp : DeclComp) : Except PyExc (List Char × DeclComp) :=
  (renderAt fuel).declCompStrMut comp

def termStrList (fuel : Nat) (ts : List CxxTerm) : Except PyExc (List (List Char)) :=
  (renderAt fuel).termStrList ts

/-- `CxxDeclComponent.apply`.  `cur_decl_content` is always the accumulator
string from `CxxType.format` (which starts from `""`, not `None`).  Returns
the new accumulator and the component as mutated by its own `str`. -/
def declApply (fuel : Nat) (comp : DeclComp) (cur_decl_content : List Char) (prev_decl : Option DeclComp) : Except PyExc (List Char × DeclComp) :=
  (renderAt fuel).declApply comp cur_decl_content prev_decl

/-- Inner while-loop of `CxxDeclComponent.from_type` that consumes the CV
qualifiers following a `FUNCTION` term; returns the new index and the
appended queue. -/
def fromTypeConsumeCv (fuel : Nat) (terms_queue : List CxxTerm) (i : Nat) (decl_queue : List CxxTerm) : Except PyExc (Nat × List CxxTerm) :=
  (renderAt fuel).fromTypeConsumeCv terms_queue i decl_queue

/-- The indexed while-loop of `CxxDeclComponent.from_type`. -/
def fromTypeLoop (fuel : Nat) (terms_queue : List CxxTerm) (i : Nat) (decl_queue : List CxxTerm) (decl : List DeclComp) : Except PyExc (List DeclComp × List CxxTerm) :=
  (renderAt fuel).fromTypeLoop terms_queue i decl_queue decl

/-- `CxxDeclComponent.from_type`.  `terms_queue = copy.copy(typ.terms)`: the
loop reads a *shallow copy* of the type's term list, so nothing in rendering
ever writes to the `CxxType` itself. -/
def fromType (fuel : Nat) (typ : CxxType) (identifier : Option CxxTerm) : Except PyExc (List DeclComp) :=
  (renderAt fuel).fromType typ identifier

/-- The declarator-application fold of `CxxType.format`: the accumulator
starts at `""` with no previous component, and `prev_decl` is the component
object *after* its own `str` ran (carrying the in-place reversal). -/
def formatFold (fuel : Nat) (comps : List DeclComp) (result : List Char) (prev_decl : Option DeclComp) : Except PyExc (List Char) :=
  (renderAt fuel).formatFold comps result prev_decl

/-- `CxxType.format`. -/
def typeFormat (fuel : Nat) (typ : CxxType) (identifier : Option CxxTerm) : Except PyExc (List Char) :=
  (renderAt fuel).typeFormat typ identifier

/-- `CxxType.__str__`. -/
def typeStr (fuel : Nat) (typ : CxxType) : Except PyExc (List Char) :=
  (renderAt fuel).typeStr typ


/-- `CxxSymbol.__str__`. -/
def symbolStr (fuel : Nat) (sym : CxxSymbol) : Except PyExc (List Char) :=
  let prefix_str : List Char :=
    if sym.is_global_xtor then
      "global ".data
        ++ (if sym.is_global_constructor then "constructors".data else "destructors".data)
        ++ " keyed to ".data
    else if sym.is_dll_imported then "import stub for ".data
    else []
  match sym.type with
  | none =>
    let suffix_str := if sym.is_vtable then " virtual table".data else []
    match termStr fuel sym.name with
    | .error e => .error e
    | .ok s => .ok (prefix_str ++ s ++ suffix_str)
  | some typ =>
    let static_str := if sym.is_static then "static ".data else []
    match typeFormat fuel typ (some sym.name) with
    | .error e => .error e
    | .ok s => .ok (prefix_str ++ static_str ++ s)

/-! ## The demangler engine state (`demangler.py`, `GNU2Demangler`) -/

/-- The mutable fields of a `GNU2Demangler` object. -/
structure PState where
  btypes : List CxxTerm
  ktypes : List CxxName
  typevec : List CxxType
  func_templ : Option CxxTemplate
  vtable : Bool
  static_type : Bool
  dll_imported : Bool
  ctor : Nat
  dtor : Nat
  forgetting_types : Nat

/-- `GNU2Demangler._reset` writes every field, so the post-reset state is a
constant. -/
def initPState : PState :=
  ⟨[], [], [], none, false, false, false, 0, 0, 0⟩

/-- `GNU2Demangler._reset` (it ignores the previous state entirely). -/
def PState.reset (_ : PState) : PState :=
  initPState

/-- Outcome of one engine step: result or raised exception, in both cases
with the parser state and cursor at the moment of return/raise (Python
exception unwinding keeps all prior mutations). -/
inductive PRes (α : Type) where
  | ok (a : α) (st : PState) (cur : Cursor)
  | err (e : PyExc) (st : PState) (cur : Cursor)

/-- An engine method: reads and writes the shared parser object and the
shared cursor. -/
def M (α : Type) : Type :=
  PState → Cursor → PRes α

def M.pure (a : α) : M α := fun st cur => .ok a st cur

def M.bind (x : M α) (f : α → M β) : M β := fun st cur =>
  match x st cur with
  | .ok a st2 cur2 => f a st2 cur2
  | .err e st2 cur2 => .err e st2 cur2

instance : Monad M where
  pure := M.pure
  bind := M.bind

/-- `raise e`. -/
def M.throw (e : PyExc) : M α := fun st cur => .err e st cur

/-- A bare `except:` / `except Exception:` handler: every exception class is
caught; the handler continues from the state and cursor at the raise. -/
def tryAll (x : M α) (handler : M α) : M α := fun st cur =>
  match x st cur with
  | .ok a st2 cur2 => .ok a st2 cur2
  | .err _ st2 cur2 => handler st2 cur2

/-- Lift a pure `Except` computation (e.g. an AST helper whose asserts can
fire). -/
def liftE (x : Except PyExc α) : M α := fun st cur =>
  match x with
  | .ok a => .ok a st cur
  | .error e => .err e st cur

def getSt : M PState := fun st cur => .ok st st cur

def setSt (s : PState) : M Unit := fun _ cur => .ok () s cur

def modifySt (f : PState → PState) : M Unit := fun st cur => .ok () (f st) cur

def getCur : M Cursor := fun st cur => .ok cur st cur

def setCur (c : Cursor) : M Unit := fun st _ => .ok () st c

/-- `src.seek(n)`. -/
def seekM (n : Nat) : M Unit := fun st cur => .ok () st (cur.seekTo n)

/-- `src.tell()`. -/
def tellM : M Nat := fun st cur => .ok cur.pos st cur

/-- `io_util.read_exact(src, size)`.  `src.read` consumes what it can before
the length check, so on failure the cursor has advanced. -/
def readExactM (size : Int) : M (List Char) := fun st cur =>
  let (value, cur2) := cur.read size
  if (value.length : Int) ≠ size then
    .err (.valueError "Unable to read requested bytes") st cur2
  else
    .ok value st cur2

/-- `src.read(size)` (no length check). -/
def readM (size : Int) : M (List Char) := fun st cur =>
  let (value, cur2) := cur.read size
  .ok value st cur2

/-- `src.read()`. -/
def readAllM : M (List Char) := readM (-1)

/-- `io_util.read_number(src, allow_zero)`. -/
def readNumberM (allow_zero : Bool) : M Nat := fun st cur =>
  match peekNumber cur with
  | none => .err (.valueError "Unable to parse expected number from string.") st cur
  | some (number, next_offset) =>
    if ¬ allow_zero ∧ number = 0 then
      .err (.valueError "length must be positive") st cur
    else
      let (_, cur2) := cur.read next_offset
      .ok number st cur2

/-- `io_util.read_number_with_underscores(src)`. -/
def readNumberWithUnderscoresM : M Nat := do
  let cur ← getCur
  if peekAt cur 1 0 = "_".data then
    let _ ← readExactM 1
    let number ← readNumberM true
    let cur2 ← getCur
    if ¬ (peekAt cur2 1 0 = "_".data) then
      M.throw (.valueError "Expected trailing _ character after number!")
    else do
      let _ ← readExactM 1
      pure number
  else
    -- `if not peek(src).isdecimal(): raise` (`"".isdecimal()` is `False`)
    if ¬ (peekAt cur 1 0).any isDec then
      M.throw (.valueError "Expected to read single decimal digit!")
    else do
      let d ← readExactM 1
      pure (digitsToNat d)

/-- `demangler._read_odd_count(src)`.  Returns `none` where Python returns
`None` (the callers then fail with `TypeError`). -/
def readOddCount : M (Option Nat) := fun st cur =>
  match peekNumber cur with
  | none => .ok none st cur
  | some (number, next_offset) =>
    if (Token.peek cur (next_offset : Int)).is_underscore then
      let (_, cur2) := cur.read (next_offset + 1)
      .ok (some number) st cur2
    else
      -- only the first digit is consumed
      let d := peekAt cur 1 0
      let (_, cur2) := cur.read 1
      .ok (some (digitsToNat d)) st cur2

/-- Result alternatives from `_gnu_special` / `_demangle_prefix`:
`None`, a `QUALIFIED` `CxxTerm`, or a full `CxxSymbol`. -/
inductive GSRes where
  | non
  | trm (t : CxxTerm)
  | symb (s : CxxSymbol)

/-- Result alternatives from `_iterate_demangle_function`. -/
inductive NameOrSym where
  | nm (n : CxxName)
  | symb (s : CxxSymbol)

/-- `str(n)` for a count, used in error messages. -/
def natStr (n : Nat) : String :=
  String.mk (Nat.toDigits 10 n)

/-- `GNU2Demangler._remember_type`. -/
def rememberType (typ : CxxType) : M Unit :=
  modifySt fun st =>
    if st.forgetting_types > 0 then st else { st with typevec := st.typevec ++ [typ] }

/-- `GNU2Demangler._remember_btype` (the returned index is unused at every
call site). -/
def rememberBtype (t : CxxTerm) : M Unit :=
  modifySt fun st => { st with btypes := st.btypes ++ [t] }

/-- `GNU2Demangler._remember_ktype`. -/
def rememberKtype (n : CxxName) : M Unit :=
  modifySt fun st => { st with ktypes := st.ktypes ++ [n] }

/-- `GNU2Demangler._demangle_backref_type`: resolve a `T` backreference index
against the remembered-argument-types table.  (`idx < 0` is impossible since
the index is read as an unsigned number.) -/
def demangleBackrefType : M CxxType := do
  let idx ← readNumberM true
  let st ← getSt
  if h : st.typevec.length ≤ idx then
    M.throw (.valueError ("Invalid index " ++ natStr idx ++ " for backreferenced T type code!"))
  else
    pure (st.typevec.get ⟨idx, Nat.lt_of_not_le h⟩)

/-- `GNU2Demangler._demangle_ktype`: resolve a `K` backreference index against
the remembered-qualified-names table. -/
def demangleKtype : M CxxName := do
  let k_idx ← readNumberWithUnderscoresM
  let st ← getSt
  if h : st.ktypes.length ≤ k_idx then
    M.throw (.valueError
      ("Invalid index " ++ natStr k_idx ++ " for backreferenced K-type qualified name!"))
  else
    pure (st.ktypes.get ⟨k_idx, Nat.lt_of_not_le h⟩)

/-- `GNU2Demangler._demangle_integral_value`. -/
def demangleIntegralValue : M CxxValue := do
  let cur ← getCur
  let next := Token.peek cur 0
  if next.kind = .expression then
    M.throw (.assertionError "Expressions in integral literals are not supported yet")
  else if next.is_qualified then
    M.throw (.assertionError "Qualified integral literals are not supported yet")
  else do
    let (negate, multidigit, leave) ←
      if next.is_underscore then
        if (Token.peek cur 1).kind = .negate then do
          -- consume the `_m` prefix
          let _ ← readExactM 2
          pure (true, true, false)
        else
          pure (false, false, true)
      else
        if next.kind = .negate then do
          let _ ← readExactM 1
          pure (true, true, true)
        else
          pure (false, true, true)
    let value ← if multidigit then readNumberM true else readNumberWithUnderscoresM
    let cur2 ← getCur
    if (value > 9 ∨ multidigit = true) ∧ leave = false
        ∧ (Token.peek cur2 0).is_underscore = true then do
      let _ ← readExactM 1
      pure ()
    else pure ()
    let signed : Int := if negate then -(value : Int) else (value : Int)
    pure (CxxValue.mk (.pint signed))

/-- `GNU2Demangler._demangle_real_value`.  The value is kept as its source
text (see the header note on `float`). -/
def demangleRealValue : M CxxValue := do
  let cur ← getCur
  let next := Token.peek cur 0
  if next.kind = .expression then
    M.throw (.assertionError "Expressions in integral literals are not supported yet")
  else do
    let sign : List Char ←
      if next.kind = .negate then do
        let _ ← readExactM 1
        pure ['-']
      else pure []
    let ipart ← readNumberM true
    let fp1 := sign ++ (Nat.toDigits 10 ipart)
    let cur2 ← getCur
    let fp2 ←
      if peekAt cur2 1 0 = ".".data then do
        let dot ← readExactM 1
        let frac ← readNumberM true
        pure (fp1 ++ dot ++ Nat.toDigits 10 frac)
      else pure fp1
    let cur3 ← getCur
    let fp3 ←
      if peekAt cur3 1 0 = "e".data then do
        let e ← readExactM 1
        let expn ← readNumberM true
        pure (fp2 ++ e ++ Nat.toDigits 10 expn)
      else pure fp2
    pure (CxxValue.mk (.preal fp3))

/-- `GNU2Demangler._demangle_bool_value`. -/
def demangleBoolValue : M CxxValue := do
  let value ← readNumberM true
  if value ≤ 1 then
    pure (CxxValue.mk (.pbool (value = 1)))
  else
    M.throw (.assertionError ("Value " ++ natStr value ++ " out of bounds for bool literal!"))

/-- `GNU2Demangler._demangle_char_value`. -/
def demangleCharValue : M CxxValue := do
  let cur ← getCur
  let sign : List Char ←
    if (Token.peek cur 0).kind = .negate then do
      let _ ← readExactM 1
      pure ['-']
    else pure []
  let value ← readNumberM true
  if value ≤ 255 then
    pure (CxxValue.mk (.pstr (sign ++ [Char.ofNat value])))
  else
    M.throw (.assertionError
      ("Value " ++ natStr value ++ " out of bounds for mangled char literal!"))

/-- `GNU2Demangler._consume_xtor_if_needed`.  Mirrors the source's order:
the counter is decremented before the base name is read, so a failure in
`get_base_name` leaves the decrement behind. -/
def consumeXtor (name_term : CxxTerm) : M CxxTerm := do
  let st ← getSt
  let is_ctor := st.ctor % 2 = 1
  let is_dtor := st.dtor % 2 = 1
  if is_ctor ∧ is_dtor then
    M.throw (.assertionError "Cannot parse both constructor and destructor at the same time!")
  else if is_ctor ∨ is_dtor then do
    let extra : List Char := if is_ctor then [] else ['~']
    modifySt fun s =>
      if is_ctor then { s with ctor := s.ctor - 1 } else { s with dtor := s.dtor - 1 }
    let base ← liftE name_term.get_base_name
    let bn ← liftE base.nameAttr
    liftE (name_term.add_base_name (.qname (.mk (extra ++ bn) none)))
  else
    pure name_term

/-- The local variables of the `_demangle_signature` token scan. -/
structure SigAcc where
  name_term : CxxTerm
  func_args : List CxxType
  func_ret : Option CxxType
  qualis : List CxxTerm
  func_done : Bool
  expect_func : Bool
  expect_return_type : Bool

/-- The two field assignments `sym.is_virtual_thunk = True` /
`sym.vthunk_delta = -delta` performed by the virtual-thunk branch of
`_gnu_special` on an already-constructed symbol (note: `__post_init__` is
*not* re-run on field mutation). -/
def CxxSymbol.setVthunk (s : CxxSymbol) (delta : Int) : CxxSymbol :=
  match s with
  | .mk n t tin tif vt st gc gd dll _ _ =>
    .mk n t tin tif vt st gc gd dll true (some delta)

/-- `with as_stringio(fragment) as src:` — run a computation over a fresh
buffer; the outer cursor is untouched (parser-state mutations persist). -/
def withBuffer (buf : List Char) (x : M α) : M α := fun st cur =>
  match x st ⟨buf, 0⟩ with
  | .ok a st2 _ => .ok a st2 cur
  | .err e st2 _ => .err e st2 cur

/-- `with peeking(src):` — run the body, then restore the cursor position
(also on an exception, which is re-raised). -/
def withPeeking (x : M α) : M α := fun st cur =>
  match x st cur with
  | .ok a st2 cur2 => .ok a st2 (cur2.seekTo cur.pos)
  | .err e st2 cur2 => .err e st2 (cur2.seekTo cur.pos)

/-- `GNU2Demangler._demangle_class_name`: `[n][name]`.  The final
`Special.peek_for_global(src) == Special.Kind.GLOBAL_ANONYMOUS` comparison in
the source compares a `Special` *object* against a `Special.Kind` enum
member, which is always `False` in Python (dataclass vs str-enum), so the
`"{anonymous}"` substitution is dead code and is omitted here. -/
def demangleClassName : M CxxName := do
  let name_len ← readNumberM false
  let name ← readExactM (name_len : Int)
  pure (CxxName.mk name none)

/-- `GNU2Demangler._demangle_class`. -/
def demangleClass : M CxxTerm := do
  let name ← demangleClassName
  let term := CxxTerm.make_name [.qname name]
  rememberKtype name
  rememberBtype term
  pure term

/-- The bundle of mutually-recursive engine methods at one fuel level.
Each call consumes one fuel level; the bundled `Nat.rec` form keeps kernel
reduction of concrete runs linear. -/
structure EngineFns where
  parseRec : M CxxSymbol
  parseFresh : List Char → Except PyExc CxxSymbol
  gnuSpecial : M GSRes
  vtableLoop : CxxTerm → M CxxTerm
  demanglePrefixPart : M GSRes
  demangleSignature : Option QualName → M CxxSymbol
  sigLoop : SigAcc → M SigAcc
  demangleArgs : M (List CxxType)
  argsLoop : List CxxType → M (List CxxType)
  demangleNestedArgs : M (List CxxType)
  demangleTemplateType : Bool → M CxxName
  demangleTemplateFn : M (Option CxxTemplate)
  templParamsLoop : CxxName → Nat → M CxxName
  doArg : M CxxType
  doType : M CxxType
  doTypeModLoop : List CxxTerm → M (List CxxTerm)
  demangleTemplateValueParm : CxxType → M CxxValue
  demangleSymbolRefValue : M CxxValue
  iterateDemangleFunction : Int → M NameOrSym
  iterLoop : Nat → Option Int → Option CxxName → M NameOrSym
  demangleFunctionName : Int → M (Option CxxName)
  demangleFuncNameAsOperator : List Char → M (Option (List Char))
  demangleQualified : Bool → M CxxTerm
  qualNamesLoop : Nat → CxxTerm → M CxxTerm
  demangleFundType : M CxxType
  demangleQualiSpecTerms : M (List CxxTerm)

/-- The fuel-exhausted bundle. -/
def engineZero : EngineFns where
  parseRec := M.throw .fuel
  parseFresh := fun _ => .error .fuel
  gnuSpecial := M.throw .fuel
  vtableLoop := fun _ => M.throw .fuel
  demanglePrefixPart := M.throw .fuel
  demangleSignature := fun _ => M.throw .fuel
  sigLoop := fun _ => M.throw .fuel
  demangleArgs := M.throw .fuel
  argsLoop := fun _ => M.throw .fuel
  demangleNestedArgs := M.throw .fuel
  demangleTemplateType := fun _ => M.throw .fuel
  demangleTemplateFn := M.throw .fuel
  templParamsLoop := fun _ _ => M.throw .fuel
  doArg := M.throw .fuel
  doType := M.throw .fuel
  doTypeModLoop := fun _ => M.throw .fuel
  demangleTemplateValueParm := fun _ => M.throw .fuel
  demangleSymbolRefValue := M.throw .fuel
  iterateDemangleFunction := fun _ => M.throw .fuel
  iterLoop := fun _ _ _ => M.throw .fuel
  demangleFunctionName := fun _ => M.throw .fuel
  demangleFuncNameAsOperator := fun _ => M.throw .fuel
  demangleQualified := fun _ => M.throw .fuel
  qualNamesLoop := fun _ _ => M.throw .fuel
  demangleFundType := M.throw .fuel
  demangleQualiSpecTerms := M.throw .fuel

/-- One step of the engine family: each body is the source method,
calling the previous level for every recursive call.  `fuelLvl` is the
level of `prev`, threaded only into the renderer call of
`_demangle_func_name_as_operator`. -/
def engineStep (fuelLvl : Nat) (prev : EngineFns) : EngineFns where
  parseRec := do
    let st ← getSt
    let old_ctor := st.ctor
    let old_dtor := st.dtor
    let old_static := st.static_type
    setSt { st with dll_imported := false, ctor := 0, dtor := 0 }
    let base ← tellM
    let result ← tryAll (prev.gnuSpecial) (do
      seekM base
      modifySt PState.reset
      prev.demanglePrefixPart)
    match result with
    | .symb s => pure s
    | .trm t => do
      let sym ← prev.demangleSignature (some (.qterm t))
      modifySt fun s =>
        { s with ctor := old_ctor, dtor := old_dtor, static_type := old_static }
      pure sym
    | .non => do
      let sym ← prev.demangleSignature none
      modifySt fun s =>
        { s with ctor := old_ctor, dtor := old_dtor, static_type := old_static }
      pure sym
  parseFresh := fun (symbol : List Char) =>
    match prev.parseRec initPState ⟨symbol, 0⟩ with
    | .err e _ _ => .error e
    | .ok sym _ cur =>
      if ¬ cur.remaining.isEmpty then
        .error (.valueError "Unable to parse full input, leftover chars")
      else .ok sym
  gnuSpecial := do
    let cur ← getCur
    let prefix_sp := Special.peek cur
    if prefix_sp.kind = .dtor then do
      let _ ← readExactM (prefix_sp.content.length : Int)
      modifySt fun s => { s with dtor := s.dtor + 1 }
      pure .non
    else if prefix_sp.kind = .vtable then do
      let _ ← readExactM (prefix_sp.content.length : Int)
      modifySt fun s => { s with vtable := true }
      let name := CxxTerm.mk .qualified none none none (some []) none
      let name ← prev.vtableLoop name
      pure (.trm name)
    else if prefix_sp.kind = .staticData then do
      let _ ← readExactM (prefix_sp.content.length : Int)
      modifySt fun s => { s with static_type := true }
      let cur2 ← getCur
      let next := Token.peek cur2 0
      let name := CxxTerm.mk .qualified none none none (some []) none
      let name ←
        if next.is_qualified then do
          let q ← prev.demangleQualified false
          liftE (name.base_on q)
        else if next.kind = .template then do
          let n ← prev.demangleTemplateType true
          liftE (name.add_base_name (.qname n))
        else do
          let n ← demangleClassName
          liftE (name.add_base_name (.qname n))
      let cur3 ← getCur
      if ¬ (Token.peek cur3 0).is_marker then
        M.throw (.assertionError "Expected marker before variable name in static data symbol!")
      else do
        let _ ← readExactM 1
        let rest ← readAllM
        let name ← liftE (name.add_base_name (.qname (.mk rest none)))
        pure (.trm name)
    else if prefix_sp.is_type_info then do
      let _ ← readExactM (prefix_sp.content.length : Int)
      let cur2 ← getCur
      let next := Token.peek cur2 0
      let typ ←
        if next.is_qualified then do
          let q ← prev.demangleQualified false
          pure (CxxType.mk [q])
        else if next.kind = .template then do
          let n ← prev.demangleTemplateType true
          pure (CxxType.mk [CxxTerm.make_name [.qname n]])
        else
          prev.doType
      let cur3 ← getCur
      if ¬ cur3.remaining.isEmpty then
        M.throw (.assertionError "Expected empty buffer after demangling type info symbol!")
      else do
        let name_str :=
          if prefix_sp.kind = .tinfoNode then "type_info node".data else "type_info function".data
        let name := CxxTerm.mk .qualified none none none
          (some [.qname (.mk name_str none)]) none
        let sym ← liftE (mkCxxSymbol name (some typ)
          (prefix_sp.kind = .tinfoNode) (prefix_sp.kind = .tinfoFunc)
          false false false false false false none)
        pure (.symb sym)
    else if prefix_sp.kind = .vthunk then do
      let _ ← readExactM (prefix_sp.content.length : Int)
      let delta ← readNumberM true
      let cur2 ← getCur
      if ¬ (Token.peek cur2 0).is_underscore then
        M.throw (.assertionError
          "Expected underscore after reading delta for virtual function thunk!")
      else do
        let _ ← readExactM 1
        -- recursively run the demangler on the rest of the symbol
        -- (same engine object, same cursor)
        let sym ← prev.parseRec
        pure (.symb (sym.setVthunk (-(delta : Int))))
    else
      M.throw (.assertionError "Unknown GNU special prefix.")
  vtableLoop := fun (name : CxxTerm) => do
    let cur ← getCur
    let next := Token.peek cur 0
    if ¬ next.truthy then
      pure name
    else do
      let name ←
        if next.is_qualified then do
          let q ← prev.demangleQualified false
          liftE (name.base_on q)
        else if next.kind = .template then do
          let n ← prev.demangleTemplateType true
          liftE (name.add_base_name (.qname n))
        else if next.is_digit then do
          let length ← readNumberM false
          let cur2 ← getCur
          -- GNU does not throw an error when the length is too big here
          if (length : Int) ≤ bytesLeft cur2 0 then do
            let chars ← readM (length : Int)
            liftE (name.add_base_name (.qname (.mk chars none)))
          else
            pure name
        else do
          let cur2 ← getCur
          let to_read : Int :=
            match Token.scan_for_marker cur2 with
            | none => -1
            | some n => (n : Int)
          let chars ← readM to_read
          liftE (name.add_base_name (.qname (.mk chars none)))
      let cur3 ← getCur
      let next_char := peekAt cur3 1 0
      let next2 := Token.from_chars next_char
      if ¬ (next_char.isEmpty ∨ next2.is_marker = true) then
        M.throw (.assertionError
          "Expected end of buffer or marker token after demangling part of qualified vtable name")
      else do
        if next2.is_marker then do
          let _ ← readExactM 1
          pure ()
        else pure ()
        prev.vtableLoop name
  demanglePrefixPart := do
    let cur ← getCur
    let viaGlobal ←
      match Special.peek_for_dllimport cur with
      | some sp => do
        let _ ← readExactM (sp.content.length : Int)
        modifySt fun s => { s with dll_imported := true }
        pure (none : Option GSRes)
      | none =>
        match Special.peek_for_global cur with
        | some sp => do
          if sp.kind = .globalCtor then
            modifySt fun s => { s with ctor := 2 }
          else if sp.kind = .globalDtor then
            modifySt fun s => { s with dtor := 2 }
          else pure ()
          let st ← getSt
          if st.ctor = 2 ∨ st.dtor = 2 then do
            let _ ← readExactM (sp.content.length : Int)
            tryAll (do
              let r ← prev.gnuSpecial
              pure (some r))
              (pure none)
          else pure none
        | none => pure (none : Option GSRes)
    match viaGlobal with
    | some r => pure r
    | none => do
      let cur ← getCur
      let viaDunder ←
        match lookaheadForSubstring cur "__".data 0 with
        | some dunder0 => do
          -- ensure we start at the last pair in a longer `_` run
          let seq_length := lookaheadWhileChars cur ['_'] (dunder0 : Int)
          let dunder := if seq_length > 2 then dunder0 + (seq_length - 2) else dunder0
          let after_dunder := Token.peek cur ((dunder : Int) + 2)
          let skipped_chars : Bool := dunder ≠ 0
          let st ← getSt
          if st.static_type then do
            let next := Token.peek cur 0
            if ¬ (next.is_digit ∨ next.kind = .template) then
              M.throw (.valueError
                "Expected digit or template specifier for static data member!")
            else pure (none : Option GSRes)
          else if ¬ skipped_chars
              ∧ (after_dunder.is_digit ∨ after_dunder.is_qualified
                  ∨ after_dunder.is_template_start) then do
            -- GNU-style constructor
            modifySt fun s => { s with ctor := s.ctor + 1 }
            let _ ← readExactM 2
            pure none
          else if ¬ (skipped_chars ∨ after_dunder.is_digit
              ∨ after_dunder.kind = .template) then do
            match lookaheadForSubstring cur "__".data ((dunder : Int) + 2) with
            | none =>
              M.throw (.valueError
                "Expected a __ substring further right in symbol prefix.")
            | some rightmost_guess => do
              let r ← prev.iterateDemangleFunction ((dunder : Int) + 2 + rightmost_guess)
              match r with
              | .symb s => pure (some (.symb s))
              | .nm n => pure (some (.trm (CxxTerm.make_name [.qname n])))
          else if bytesLeft cur ((dunder : Int) + 2) > 0 then do
            let r ← prev.iterateDemangleFunction (dunder : Int)
            match r with
            | .symb s => pure (some (.symb s))
            | .nm n => pure (some (.trm (CxxTerm.make_name [.qname n])))
          else pure none
        | none => pure (none : Option GSRes)
      match viaDunder with
      | some r => pure r
      | none => do
        let st ← getSt
        if st.ctor = 2 ∨ st.dtor = 2 then do
          let rest ← readAllM
          pure (.trm (CxxTerm.make_name [.qname (.mk rest none)]))
        else pure .non
  demangleSignature := fun (base_name : Option QualName) => do
    let name_term := CxxTerm.mk .qualified none none none (some []) none
    let name_term ←
      match base_name with
      | some b => liftE (name_term.add_base_name b)
      | none => pure name_term
    let cur ← getCur
    let final ←
      if ¬ cur.remaining.isEmpty then do
        let acc ← prev.sigLoop
          ⟨name_term, [], none, [], false, false, false⟩
        let func_args ←
          if ¬ acc.func_done then prev.demangleArgs else pure acc.func_args
        -- upstream inserts a bare `CxxTerm(kind=VOID)` into the (otherwise
        -- `list[CxxType]`) parameter list; it is represented as the
        -- identically-rendering one-term `CxxType` here
        let func_args :=
          if func_args.isEmpty then [CxxType.mk [mkTerm .void]] else func_args
        let final_type := CxxType.mk
          ((CxxTerm.mk .function none (some func_args) acc.func_ret none none) :: acc.qualis)
        pure (acc.name_term, some final_type)
      else
        match base_name with
        | none =>
          M.throw (.assertionError
            "Empty buffer for signature, but base symbol name is unknown!")
        | some _ => pure (name_term, (none : Option CxxType))
    let st ← getSt
    liftE (mkCxxSymbol final.1 final.2
      false false st.vtable st.static_type
      (st.ctor = 2) (st.dtor = 2) st.dll_imported false none)
  sigLoop := fun (acc : SigAcc) => do
    let cur ← getCur
    let next := Token.peek cur 0
    if ¬ next.truthy then
      pure acc
    else do
      let acc ←
        if next.is_qualified then do
          let q ← prev.demangleQualified true
          let nt ← liftE (acc.name_term.qualify_with q)
          if next.kind = .qualified then
            -- remember the mangled type we just parsed (the source stores a
            -- live alias of `name_term`; the value at this point is stored)
            rememberType (CxxType.mk [nt])
          else pure ()
          pure { acc with name_term := nt, expect_func := true }
        -- (the `next == Token.Kind.STATIC` comparison in the source compares
        -- a Token object against a Kind member and is always False — dead)
        else if next.is_cv_quali then do
          let _ ← readExactM 1
          pure { acc with qualis := acc.qualis ++ [next.get_quali_term] }
        else if next.is_digit then do
          let name ← demangleClass
          rememberType (CxxType.mk [name])
          let name ← consumeXtor name
          let nt ← liftE (acc.name_term.qualify_with name)
          let cur2 ← getCur
          let ef := if ¬ (Token.peek cur2 0).is_function then true else acc.expect_func
          pure { acc with name_term := nt, expect_func := ef }
        else if next.kind = .backref then
          -- TODO in source: `do_type()` is not called; only the trigger below
          pure { acc with expect_func := true }
        else if next.is_function then do
          let _ ← readExactM 1
          let fa ← prev.demangleArgs
          pure { acc with func_done := true, func_args := fa }
        else if next.kind = .template then do
          let templ_name ← prev.demangleTemplateType true
          let nt ← liftE (acc.name_term.add_qualifying_name (.qname templ_name))
          rememberType (CxxType.mk [CxxTerm.make_name [.qname templ_name]])
          let nt ← consumeXtor nt
          pure { acc with name_term := nt, expect_func := true }
        else if next.kind = .underscore then do
          if ¬ acc.expect_return_type then
            M.throw (.valueError "Unexpected _ character in function signature!")
          else do
            let _ ← readExactM 1
            let rt ← prev.doType
            pure { acc with func_ret := some rt }
        else if next.kind = .templateGpp then do
          let templ_args ← prev.demangleTemplateFn
          let base ← liftE acc.name_term.get_base_name
          let nt := acc.name_term.setBaseName (base.setTemplate templ_args)
          let st ← getSt
          let ert := if st.ctor % 2 = 0 then true else acc.expect_return_type
          let cur2 ← getCur
          if cur2.remaining.isEmpty then
            M.throw (.valueError "Expected a return type for template function!")
          else do
            let _ ← readExactM 1
            pure { acc with name_term := nt, expect_return_type := ert }
        else do
          -- assume the first outermost function argument token
          let fa ← prev.demangleArgs
          pure { acc with func_done := true, func_args := fa }
      let acc ←
        if acc.expect_func then do
          let fa ← prev.demangleArgs
          pure { acc with func_done := true, func_args := fa, expect_func := false }
        else pure acc
      prev.sigLoop acc
  demangleArgs := do
    let args ← prev.argsLoop []
    let cur ← getCur
    if (Token.peek cur 0).kind = .elipses then do
      let _ ← readExactM 1
      M.throw (.assertionError "Elipses not supported yet")
    else
      pure args
  argsLoop := fun (args : List CxxType) => do
    let cur ← getCur
    let next := Token.peek cur 0
    if ¬ (next.truthy ∧ next.kind ≠ .underscore ∧ next.kind ≠ .elipses) then
      pure args
    else do
      let args ←
        if next.kind = .repeat ∨ next.kind = .backrefType then do
          let _ ← readExactM 1
          let num_repeats ←
            if next.kind = .repeat then do
              let oc ← readOddCount
              match oc with
              | none =>
                -- `assert None > 0` raises TypeError in Python 3
                M.throw (.typeError "unsupported comparison between NoneType and int")
              | some n =>
                if ¬ (n > 0) then
                  M.throw (.assertionError
                    ("Number of repeats " ++ natStr n ++ " is invalid!"))
                else pure n
            else pure 1
          let repeated_type ← demangleBackrefType
          pure (args ++ List.replicate num_repeats repeated_type)
        else do
          let t ← prev.doArg
          pure (args ++ [t])
      prev.argsLoop args
  demangleNestedArgs := do
    modifySt fun s => { s with forgetting_types := s.forgetting_types + 1 }
    let args ← prev.demangleArgs
    modifySt fun s => { s with forgetting_types := s.forgetting_types - 1 }
    pure args
  demangleTemplateType := fun (remember : Bool) => do
    let _ ← readExactM 1  -- the 't'
    let cur ← getCur
    let next := Token.peek cur 0
    if next.kind = .templateTemparm then do
      let _ ← readExactM 2
      M.throw (.assertionError "Template template parameters not yet supported")
    else do
      let templ ← demangleClassName
      let oc ← readOddCount
      match oc with
      | none => M.throw (.typeError "NoneType object cannot be interpreted as an integer")
      | some num_params => do
        let templ ← prev.templParamsLoop templ num_params
        if remember then
          rememberBtype (CxxTerm.make_name [.qname templ])
        else pure ()
        pure templ
  demangleTemplateFn := do
    let _ ← readExactM 1  -- the 'H'
    let templ := CxxName.mk [] none
    let oc ← readOddCount
    match oc with
    | none => M.throw (.typeError "NoneType object cannot be interpreted as an integer")
    | some num_params => do
      let templ ← prev.templParamsLoop templ num_params
      let st ← getSt
      match st.func_templ with
      | some _ =>
        M.throw (.assertionError "Nested template function decls. should not be possible!")
      | none => do
        setSt { st with func_templ := templ.template }
        pure templ.template
  templParamsLoop := fun (templ : CxxName) (count : Nat) =>
    match count with
    | 0 => pure templ
    | count + 1 => do
      let cur ← getCur
      let next := Token.peek cur 0
      let templ ←
        if next.kind = .templateTypparm then do
          let _ ← readExactM 1
          let t ← prev.doType
          pure (templ.add_template_param (.typ t))
        else if next.kind = .templateTemparm then do
          let _ ← readExactM 1
          -- `_demangle_template_template_parm`
          M.throw (.assertionError "Template template params not supported yet")
        else do
          let typ ← prev.doType
          let val ← prev.demangleTemplateValueParm typ
          pure (templ.add_template_param (.value val))
      prev.templParamsLoop templ count
  doArg := do
    let cur ← getCur
    if (Token.peek cur 0).kind = .squangleRepeat then
      M.throw (.assertionError "Squangling repeat not supported yet")
    else do
      let typ ← prev.doType
      rememberType typ
      pure typ
  doType := do
    let terms ← prev.doTypeModLoop []
    let typ := CxxType.mk terms
    if typ.has_primitive_type then do
      -- we exited the loop after demangling nested function arguments
      let prim ← liftE typ.primitive_type
      if ¬ prim.kind.isFunction then
        M.throw (.assertionError "Expected primitive type to be function!")
      else do
        let cur ← getCur
        let return_type ←
          if ¬ cur.remaining.isEmpty then prev.doType
          else pure (CxxType.mk [mkTerm .void])
        -- `prim_type.function_return = return_type` mutates the term stored
        -- in `typ.terms` at the primitive index
        match typ.hasPrimitiveTypeIndex with
        | some idx =>
          pure (CxxType.mk (typ.terms.set idx (prim.withFunctionReturn (some return_type))))
        | none => M.throw (.assertionError "No primitive type found in CxxType!")
    else do
      let cur ← getCur
      let next := Token.peek cur 0
      if next.is_qualified then do
        let q ← prev.demangleQualified false
        pure (CxxType.mk (terms ++ [q]))
      else if next.kind = .backrefType then do
        let _ ← readExactM 1
        let bt ← demangleBackrefType
        pure (CxxType.mk (terms ++ bt.terms))
      else if next.kind = .backref then
        M.throw (.assertionError "Back reference B not supported yet")
      else if next.is_template_backref_parm then do
        let st ← getSt
        match st.func_templ with
        | none =>
          M.throw (.assertionError "Missing saved function template params for backref!")
        | some ft => do
          let _ ← readExactM 1  -- the 'X' or 'Y'
          let arg_idx ← readNumberWithUnderscoresM
          if h : ft.params.length ≤ arg_idx then
            M.throw (.assertionError
              ("Index " ++ natStr arg_idx ++ " for template param backref is out of bounds!"))
          else do
            -- unused filler number
            let _ ← readNumberWithUnderscoresM
            match ft.params.get ⟨arg_idx, Nat.lt_of_not_le h⟩ with
            | .typ param => pure (CxxType.mk (terms ++ param.terms))
            | _ =>
              M.throw (.assertionError
                "Non-type parameter backreferenced in template function params!")
      else do
        let ft ← prev.demangleFundType
        pure (CxxType.mk (terms ++ ft.terms))
  doTypeModLoop := fun (terms : List CxxTerm) => do
    let cur ← getCur
    let next := Token.peek cur 0
    if next.is_ptr_or_ref then do
      let _ ← readExactM 1
      prev.doTypeModLoop (terms ++ [next.get_ptr_ref_term])
    else if next.is_array then do
      let _ ← readExactM 1
      let cur2 ← getCur
      let size : Option Int ←
        if ¬ (Token.peek cur2 0).is_underscore then do
          let val ← demangleIntegralValue
          match val.value with
          | .pint i => pure (some i)
          | _ =>
            M.throw (.assertionError
              "Only integer literal for array size are currently supported!")
        else pure none
      let cur3 ← getCur
      if (Token.peek cur3 0).is_underscore then do
        let _ ← readExactM 1
        pure ()
      else pure ()
      prev.doTypeModLoop (terms ++ [CxxTerm.mk .array size none none none none])
    else if next.is_function then do
      let _ ← readExactM 1
      let params ← prev.demangleNestedArgs
      let terms := terms ++ [CxxTerm.mk .function none (some params) none none none]
      let cur2 ← getCur
      let next_char := peekAt cur2 1 0
      let next2 := Token.from_chars next_char
      if ¬ (next_char.isEmpty ∨ next2.is_underscore = true) then
        M.throw (.assertionError
          "Expected pre-return-type underscore or end of buffer after nested function args!")
      else do
        if next2.is_underscore then do
          let _ ← readExactM 1
          pure ()
        else pure ()
        -- escape the loop
        pure terms
    else if next.kind = .unkM then
      M.throw (.assertionError "Dunno what M is but it is not supported yet")
    else if next.kind = .unkG then do
      let _ ← readExactM 1
      prev.doTypeModLoop terms
    else if next.is_cv_quali then do
      let _ ← readExactM 1
      prev.doTypeModLoop (terms ++ [next.get_quali_term])
    else
      pure terms
  demangleTemplateValueParm := fun (typ : CxxType) => do
    let cur ← getCur
    if (Token.peek cur 0).kind = .templateArgBackref2 then
      M.throw (.assertionError "Y template params not supported yet")
    else do
      let prim ← liftE typ.primitive_type
      if typ.is_ptr_or_ref_type then prev.demangleSymbolRefValue
      else if prim.kind.isInteger then demangleIntegralValue
      else if prim.kind.isReal then demangleRealValue
      else if prim.kind.isCharacter then demangleCharValue
      else if prim.kind.isBool then demangleBoolValue
      else demangleIntegralValue
  demangleSymbolRefValue := do
    let cur ← getCur
    if (Token.peek cur 0).kind = .qualified then do
      let q ← prev.demangleQualified false
      pure (CxxValue.mk (.pterm q))
    else do
      let symbol_len ← readNumberM true
      if ¬ (symbol_len > 0) then
        M.throw (.assertionError
          ("Symbol with length " ++ natStr symbol_len
            ++ " in symbol ref literal not supported yet."))
      else do
        let cur2 ← getCur
        let symbol_str := peekExactAt cur2 symbol_len 0
        if symbol_str.isEmpty then
          M.throw (.assertionError
            ("Symbol length " ++ natStr symbol_len ++ " exceeds remaining length of buffer!"))
        else do
          -- the entity is independent of our parser state: a brand-new
          -- parser runs on the substring
          match prev.parseFresh symbol_str with
          | .error e => M.throw e
          | .ok sym => do
            let _ ← readExactM (symbol_len : Int)
            pure (CxxValue.mk (.pterm (CxxTerm.mk .symbolRef none none none none (some sym))))
  iterateDemangleFunction := fun (guess_offset : Int) => do
    let ptr ← tellM
    prev.iterLoop ptr (some guess_offset) none
  iterLoop := fun (ptr : Nat) (guess_offset : Option Int) (maybe_name : Option CxxName) => do
    let cur ← getCur
    let continue_loop : Bool :=
      match guess_offset with
      | some g => ¬ (peekAt cur 1 (g + 2)).isEmpty
      | none => false
    if ¬ continue_loop then
      match maybe_name with
      | none =>
        M.throw (.valueError
          "Read rest of buffer, but failed to find valid funcname-signature combo!")
      | some n => pure (.nm n)
    else do
      let g := guess_offset.getD 0
      let mn ← prev.demangleFunctionName g
      let attempt ←
        match mn with
        | some name =>
          tryAll (do
            let s ← prev.demangleSignature (some (.qname name))
            pure (some s))
            (pure none)
        | none => pure none
      match attempt with
      | some s => pure (.symb s)
      | none => do
        seekM ptr
        let cur2 ← getCur
        let guess2 : Option Int :=
          match lookaheadForSubstring cur2 "__".data (g + 2) with
          | none => none
          | some rel =>
            some ((lookaheadWhileChars cur2 ['_'] (rel : Int) : Int) - 2)
        prev.iterLoop ptr guess2 mn
  demangleFunctionName := fun (separator_offset : Int) => do
    let r ← withPeeking (do
      let func_name ← readExactM separator_offset
      let _ ← readExactM 2
      let operator ← prev.demangleFuncNameAsOperator func_name
      match operator with
      | some op => pure (some (CxxName.mk op none), separator_offset + 2)
      | none =>
        if ¬ (func_name = ".".data) then
          pure (some (CxxName.mk func_name none), separator_offset + 2)
        else
          pure ((none : Option CxxName), (0 : Int)))
    let _ ← readExactM r.2
    pure r.1
  demangleFuncNameAsOperator := fun (func_name : List Char) => do
    let operator := Operator.from_func_name func_name
    if operator.has_known_name then
      pure (some operator.get_name)
    else if operator.is_type_conv then
      let start := if operator.kind = .typeConv then 5 else 4
      tryAll
        (withBuffer (func_name.drop start) (do
          let t ← prev.doType
          -- the f-string renders the type before the `as_stringio` exit
          -- check fires
          let s ← liftE (typeStr fuelLvl t)
          let cur ← getCur
          if ¬ cur.remaining.isEmpty then
            M.throw (.valueError "Unable to parse full input, leftover chars")
          else
            pure (some ("operator ".data ++ s))))
        (pure none)
    else
      pure none
  demangleQualified := fun (is_funcname : Bool) => do
    let name_term := CxxTerm.mk .qualified none none none none none
    let first ← readExactM 1
    let (name_term, num_quali_names) ←
      if (Token.from_chars first).kind = .qualifiedNorem then do
        let kt ← demangleKtype
        let nt ← liftE (name_term.add_base_name (.qname kt))
        pure (nt, 0)
      else do
        let cur ← getCur
        let next := Token.peek cur 0
        if next.is_underscore then do
          let n ← readNumberWithUnderscoresM
          pure (name_term, n)
        else if next.is_digit ∧ next.content ≠ "0".data then do
          let d ← readExactM 1
          let cur2 ← getCur
          if (Token.peek cur2 0).is_underscore then do
            let _ ← readExactM 1
            pure (name_term, digitsToNat d)
          else
            pure (name_term, digitsToNat d)
        else
          M.throw (.valueError "Invalid character for number of name qualifiers!")
    let name_term ← prev.qualNamesLoop num_quali_names name_term
    rememberBtype name_term
    if is_funcname then
      consumeXtor name_term
    else
      pure name_term
  qualNamesLoop := fun (count : Nat) (name_term : CxxTerm) =>
    match count with
    | 0 => pure name_term
    | count + 1 => do
      let cur ← getCur
      if (Token.peek cur 0).is_underscore then do
        let _ ← readExactM 1
        pure ()
      else pure ()
      let cur2 ← getCur
      let next := Token.peek cur2 0
      let (name, remember_k) ←
        if next.kind = .template then do
          -- not remembered as a K-type, matching the G++ mangling algorithm
          let n ← prev.demangleTemplateType false
          pure (n, true)
        else if next.kind = .qualifiedNorem then do
          let _ ← readExactM 1
          let n ← demangleKtype
          pure (n, false)
        else do
          let n ← demangleClassName
          pure (n, true)
      if remember_k then
        rememberKtype name
      else pure ()
      let name_term ← liftE (name_term.add_base_name (.qname name))
      prev.qualNamesLoop count name_term
  demangleFundType := do
    let terms ← prev.demangleQualiSpecTerms
    let cur ← getCur
    let next := Token.peek cur 0
    if next.is_primitive then do
      let _ ← readExactM 1
      pure (CxxType.mk (terms ++ [next.get_primitive_term]))
    else if next.kind = .unkG then
      M.throw (.assertionError "G type not implemented yet")
    else if next.kind = .fixedWidthInt then
      M.throw (.assertionError "I type not implemented yet")
    else if next.is_digit then do
      let name ← demangleClassName
      let term := CxxTerm.make_name [.qname name]
      rememberBtype term
      pure (CxxType.mk (terms ++ [term]))
    else if next.kind = .template then do
      let name ← prev.demangleTemplateType true
      pure (CxxType.mk (terms ++ [CxxTerm.make_name [.qname name]]))
    else
      M.throw (.valueError "Unknown fundamental type specifier")
  demangleQualiSpecTerms := do
    let cur ← getCur
    let next := Token.peek cur 0
    if next.is_cv_quali || next.is_type_spec then do
      let _ ← readExactM 1
      let rest ← prev.demangleQualiSpecTerms
      pure (next.get_quali_spec_term :: rest)
    else
      pure []

/-- The engine family at a given fuel (plain `Nat.rec`). -/
def engineAt (fuel : Nat) : EngineFns :=
  Nat.rec engineZero (fun k prev => engineStep k prev) fuel

/-- `GNU2Demangler._parse`: saves/zeroes the x-tor counters, tries
`_gnu_special`, falls back (after restoring the cursor and resetting the
whole parser state) to `_demangle_prefix`, then parses the signature.  When
the prefix step already yields a full symbol it is returned *without*
restoring the saved counters (the `return result` at the top of the
function). -/
def parseRec (fuel : Nat) : M CxxSymbol :=
  (engineAt fuel).parseRec

/-- `GNU2Demangler().parse(symbol)` on a brand-new demangler: fresh state,
fresh cursor, and the `as_stringio` leftover check on exit. -/
def parseFresh (fuel : Nat) (symbol : List Char) : Except PyExc CxxSymbol :=
  (engineAt fuel).parseFresh symbol

/-- `GNU2Demangler._gnu_special`. -/
def gnuSpecial (fuel : Nat) : M GSRes :=
  (engineAt fuel).gnuSpecial

/-- The qualified-vtable-name loop of `_gnu_special`. -/
def vtableLoop (fuel : Nat) (name : CxxTerm) : M CxxTerm :=
  (engineAt fuel).vtableLoop name

/-- `GNU2Demangler._demangle_prefix`. -/
def demanglePrefixPart (fuel : Nat) : M GSRes :=
  (engineAt fuel).demanglePrefixPart

/-- `GNU2Demangler._demangle_signature`. -/
def demangleSignature (fuel : Nat) (base_name : Option QualName) : M CxxSymbol :=
  (engineAt fuel).demangleSignature base_name

/-- The token scan loop of `_demangle_signature`. -/
def sigLoop (fuel : Nat) (acc : SigAcc) : M SigAcc :=
  (engineAt fuel).sigLoop acc

/-- `GNU2Demangler._demangle_args`. -/
def demangleArgs (fuel : Nat) : M (List CxxType) :=
  (engineAt fuel).demangleArgs

/-- The argument loop of `_demangle_args`. -/
def argsLoop (fuel : Nat) (args : List CxxType) : M (List CxxType) :=
  (engineAt fuel).argsLoop args

/-- `GNU2Demangler._demangle_nested_args`: suppress type-remembering for the
duration (no `finally`, so an exception skips the decrement, as in the
source). -/
def demangleNestedArgs (fuel : Nat) : M (List CxxType) :=
  (engineAt fuel).demangleNestedArgs

/-- `GNU2Demangler._demangle_template` with `is_type=True`: read a templated
type name. -/
def demangleTemplateType (fuel : Nat) (remember : Bool) : M CxxName :=
  (engineAt fuel).demangleTemplateType remember

/-- `GNU2Demangler._demangle_template` with `is_type=False`: a function
template; stashes the parsed parameter list in the parser state and returns
it. -/
def demangleTemplateFn (fuel : Nat) : M (Option CxxTemplate) :=
  (engineAt fuel).demangleTemplateFn

/-- The per-parameter loop of `_demangle_template`. -/
def templParamsLoop (fuel : Nat) (templ : CxxName) (count : Nat) : M CxxName :=
  (engineAt fuel).templParamsLoop templ count

/-- `GNU2Demangler._do_arg`. -/
def doArg (fuel : Nat) : M CxxType :=
  (engineAt fuel).doArg

/-- `GNU2Demangler._do_type`. -/
def doType (fuel : Nat) : M CxxType :=
  (engineAt fuel).doType

/-- The prefix-modifier loop of `_do_type`. -/
def doTypeModLoop (fuel : Nat) (terms : List CxxTerm) : M (List CxxTerm) :=
  (engineAt fuel).doTypeModLoop terms

/-- `GNU2Demangler._demangle_template_value_parm`. -/
def demangleTemplateValueParm (fuel : Nat) (typ : CxxType) : M CxxValue :=
  (engineAt fuel).demangleTemplateValueParm typ

/-- `GNU2Demangler._demangle_symbol_ref_value`. -/
def demangleSymbolRefValue (fuel : Nat) : M CxxValue :=
  (engineAt fuel).demangleSymbolRefValue

/-- `GNU2Demangler._iterate_demangle_function`. -/
def iterateDemangleFunction (fuel : Nat) (guess_offset : Int) : M NameOrSym :=
  (engineAt fuel).iterateDemangleFunction guess_offset

/-- The sliding-window loop of `_iterate_demangle_function`. -/
def iterLoop (fuel : Nat) (ptr : Nat) (guess_offset : Option Int) (maybe_name : Option CxxName) : M NameOrSym :=
  (engineAt fuel).iterLoop ptr guess_offset maybe_name

/-- `GNU2Demangler._demangle_function_name`. -/
def demangleFunctionName (fuel : Nat) (separator_offset : Int) : M (Option CxxName) :=
  (engineAt fuel).demangleFunctionName separator_offset

/-- `GNU2Demangler._demangle_func_name_as_operator`. -/
def demangleFuncNameAsOperator (fuel : Nat) (func_name : List Char) : M (Option (List Char)) :=
  (engineAt fuel).demangleFuncNameAsOperator func_name

/-- `GNU2Demangler._demangle_qualified`. -/
def demangleQualified (fuel : Nat) (is_funcname : Bool) : M CxxTerm :=
  (engineAt fuel).demangleQualified is_funcname

/-- The outer-to-inner name loop of `_demangle_qualified`. -/
def qualNamesLoop (fuel : Nat) (count : Nat) (name_term : CxxTerm) : M CxxTerm :=
  (engineAt fuel).qualNamesLoop count name_term

/-- `GNU2Demangler._demangle_fund_type`. -/
def demangleFundType (fuel : Nat) : M CxxType :=
  (engineAt fuel).demangleFundType

/-- `GNU2Demangler._demangle_quali_spec_terms`. -/
def demangleQualiSpecTerms (fuel : Nat) : M (List CxxTerm) :=
  (engineAt fuel).demangleQualiSpecTerms


/-- `GNU2Demangler.parse(symbol)` as a method: `self._reset()` discards the
object's current state, then the buffer is parsed and the `as_stringio`
leftover check runs. -/
def GNU2Demangler_parse (st : PState) (fuel : Nat) (symbol : List Char) :
    Except PyExc CxxSymbol :=
  match parseRec fuel (PState.reset st) ⟨symbol, 0⟩ with
  | .err e _ _ => .error e
  | .ok sym _ cur =>
    if ¬ cur.remaining.isEmpty then
      .error (.valueError "Unable to parse full input, leftover chars")
    else .ok sym

/-- Module-level `parse(mangled)`: a fresh `GNU2Demangler` plus its `parse`
method. -/
def parse (fuel : Nat) (mangled : List Char) : Except PyExc CxxSymbol :=
  GNU2Demangler_parse initPState fuel mangled

/-- Module-level `demangle(mangled)`: `str(parse(mangled))` with *only*
`ValueError` converted into "return the input unchanged"; every other
exception class propagates to the caller. -/
def demangle (fuel : Nat) (mangled : List Char) : Except PyExc (List Char) :=
  match parse fuel mangled with
  | .ok sym =>
    match symbolStr fuel sym with
    | .ok s => .ok s
    | .error e => if e.isValueError then .ok mangled else .error e
  | .error e => if e.isValueError then .ok mangled else .error e

/-! ## Claim formalization helpers -/

/-- Unfolding lemma for the monad instance. -/
theorem M.bind_eq {α β : Type} (x : M α) (f : α → M β) : x >>= f = M.bind x f :=
  rfl

/-- Unfolding lemma for the monad instance. -/
theorem M.pure_eq {α : Type} (a : α) : (pure a : M α) = M.pure a :=
  rfl

/-- The exception of a failed engine step, if any. -/
def PRes.errOf : PRes α → Option PyExc
  | .err e _ _ => some e
  | .ok _ _ _ => none

/-- The result of a successful engine step, if any. -/
def PRes.okOf : PRes α → Option α
  | .ok a _ _ => some a
  | .err _ _ _ => none

/-- The spec's `InvalidBackreference` error kind, as realized by the code:
the two backreference resolvers raise `ValueError`s whose messages begin with
"Invalid index" (`_demangle_backref_type`, `_demangle_ktype`).  Written from
the spec's error taxonomy for comparison against the code's behaviour. -/
def isInvalidBackrefError (e : PyExc) : Bool :=
  match e with
  | .valueError m => "Invalid index".data.isPrefixOf m.data
  | _ => false

/-- Number of the mutually-exclusive symbol kind flags that are set (the
list mirrors `xor_flags` in `CxxSymbol.__post_init__`). -/
def symbolXorCount (s : CxxSymbol) : Nat :=
  (([s.is_type_info_node, s.is_type_info_func, s.is_vtable, s.is_global_constructor,
     s.is_global_destructor, s.is_virtual_thunk, s.is_dll_imported]).filter id).length

/-- The data-model invariant exactly as the claim states it: at most one
mutually-exclusive kind flag; a Type present unless static data, vtable, or
global x-tor; `vthunk_delta` present iff `is_virtual_thunk`.  Written from
the claim's words for comparison against the code's behaviour. -/
def symbolClaimInvariant (s : CxxSymbol) : Bool :=
  decide (symbolXorCount s ≤ 1)
    && (if s.type.isNone then s.is_static || s.is_vtable || s.is_global_xtor else true)
    && (s.vthunk_delta.isSome = s.is_virtual_thunk)

/-- The term list `[CONST, POINTER, CONST, UNSIGNED, INT]` from the
specifier-ordering property. -/
def c7Type : CxxType :=
  .mk [mkTerm .const, mkTerm .pointer, mkTerm .const, mkTerm .unsigned, mkTerm .int]

/-- `str(parse(mangled))` as invoked on a demangler object carrying arbitrary
prior state (the composition whose determinism C4 asserts). -/
def parseAndRender (st : PState) (fuel : Nat) (symbol : List Char) :
    Except PyExc (List Char) :=
  match GNU2Demangler_parse st fuel symbol with
  | .ok sym => symbolStr fuel sym
  | .error e => .error e

/-! ## Claims -/

/-- C1: the claim says `demangle` returns the input unchanged on every
invalid input and never raises.  The code catches only `ValueError`, while
the unsupported-construct paths raise `AssertionError`, which escapes:
on the spec's own garbage example `"not$$a$$valid$$symbol"` (whose leading
`n` is the squangling-repeat code) `demangle` propagates
`AssertionError("Squangling repeat not supported yet")` instead of returning
the input, and on `"e"` (ellipsis) it propagates
`AssertionError("Elipses not supported yet")`.  The first conjunct shows the
input is indeed not a valid mangling (`parse` fails on it). -/
theorem C1_demangle_propagates_assertion_errors :
    parse 40 "not$$a$$valid$$symbol".data =
      .error (.assertionError "Squangling repeat not supported yet")
    ∧ demangle 40 "not$$a$$valid$$symbol".data =
      .error (.assertionError "Squangling repeat not supported yet")
    ∧ demangle 40 "e".data = .error (.assertionError "Elipses not supported yet") := by
  refine ⟨rfl, by decide, by decide⟩

/-- C4: `GNU2Demangler.parse` begins with `self._reset()`, which overwrites
every mutable field of the engine, so the parse result — and therefore the
rendered string of `str(parse(mangled))` — is a function of the input alone:
two calls on objects carrying arbitrary different prior states agree. -/
theorem C4_parse_deterministic (st₁ st₂ : PState) (fuel : Nat) (symbol : List Char) :
    GNU2Demangler_parse st₁ fuel symbol = GNU2Demangler_parse st₂ fuel symbol
    ∧ parseAndRender st₁ fuel symbol = parseAndRender st₂ fuel symbol :=
  ⟨rfl, rfl⟩

/-- C5: in `_demangle_signature`, when no `F` marker is consumed the whole
remaining buffer is parsed as the implicit argument list
(`"Check__6UArrayi"`, where `i` follows the class name directly), and an
empty parsed argument list is normalized to a single `void` parameter
(`"InitRTState__5Shell"`, where nothing follows the class name); in
particular `demangle("InitRTState__5Shell") = "Shell::InitRTState(void)"`. -/
theorem C5_implicit_args_and_void_normalization :
    demangle 40 "InitRTState__5Shell".data = .ok "Shell::InitRTState(void)".data
    ∧ demangle 40 "Check__6UArrayi".data = .ok "UArray::Check(int)".data := by
  refine ⟨?_, ?_⟩ <;> decide

/-- C6: the Operator Name Resolver derives compound-assignment spellings —
an `assign_`-marked `pl` fragment becomes `+=`, the `a`-prefixed shorthand
`aml` maps to `*=` — so `demangle("__aml__5Fix16i") = "Fix16::operator*=(int)"`;
an unrecognized fragment produces kind `UNKNOWN` and
`_demangle_func_name_as_operator` returns `None` (no error), leaving the
fragment to be treated as an ordinary identifier. -/
theorem C6_operator_resolution :
    demangle 40 "__aml__5Fix16i".data = .ok "Fix16::operator*=(int)".data
    ∧ Operator.from_func_name "op$assign_pl".data = ⟨OpKind.plusAssign⟩
    ∧ (Operator.from_func_name "op$assign_pl".data).get_name = "operator+=".data
    ∧ Operator.from_func_name "__aml".data = ⟨OpKind.mulAssign⟩
    ∧ Operator.from_func_name "blah".data = ⟨OpKind.unknown⟩
    ∧ demangleFuncNameAsOperator 10 "blah".data initPState ⟨[], 0⟩ =
        .ok none initPState ⟨[], 0⟩ := by
  refine ⟨by decide, by decide, by decide, by decide, by decide, rfl⟩

/-- C7: on the term list `[CONST, POINTER, CONST, UNSIGNED, INT]`,
`from_type` partitions into a pointer component `[CONST, POINTER]` and a
specifier-sequence component `[CONST, UNSIGNED, INT]`; the pointer
component's qualifiers render reversed as `"* const"`, the pre-specifiers
render as `"const unsigned int"`, and the full rendering is exactly
`"const unsigned int * const"`. -/
theorem C7_specifier_ordering :
    fromType 50 c7Type none =
      .ok [⟨DeclKind.pointer, [mkTerm .const, mkTerm .pointer]⟩,
           ⟨DeclKind.specifierSeq, [mkTerm .const, mkTerm .unsigned, mkTerm .int]⟩]
    ∧ (declCompStrMut 50 ⟨DeclKind.pointer, [mkTerm .const, mkTerm .pointer]⟩).map Prod.fst =
        .ok "* const".data
    ∧ (declCompStrMut 50
        ⟨DeclKind.specifierSeq, [mkTerm .const, mkTerm .unsigned, mkTerm .int]⟩).map Prod.fst =
        .ok "const unsigned int".data
    ∧ typeFormat 50 c7Type none = .ok "const unsigned int * const".data :=
  ⟨rfl, rfl, rfl, rfl⟩

/-- C3, counterexample: resolving a `B`-type backreference with index `0`
against an empty B-table (`0 ≥ length`) does not fail with an
`InvalidBackreference` error — `B` resolution is unimplemented, and
`_do_type` raises the unsupported-construct assertion instead, regardless of
the index. -/
theorem C3_counterexample_B_is_unsupported :
    doType 10 initPState ⟨"B0".data, 0⟩ =
      .err (.assertionError "Back reference B not supported yet") initPState ⟨"B0".data, 0⟩
    ∧ isInvalidBackrefError (.assertionError "Back reference B not supported yet") = false
    ∧ initPState.btypes.length ≤ 0 :=
  ⟨rfl, rfl, Nat.le_refl 0⟩

/-- C3, amended: a `T` index that is ≥ the length of the remembered-argument-
types table, and a `K` index that is ≥ the length of the remembered-
qualified-names table, each fail with the `InvalidBackreference`-kind
`ValueError`, and an in-range index returns exactly the indexed entry (no
clamping or wrapping); `B` backreferences (see the counterexample) instead
fail unconditionally with an unsupported-construct assertion. -/
theorem C3_T_and_K_backref_bounds :
    (∀ (st st2 : PState) (cur cur2 : Cursor) (idx : Nat),
       readNumberM true st cur = .ok idx st2 cur2 →
       st2.typevec.length ≤ idx →
       (demangleBackrefType st cur).errOf =
         some (.valueError ("Invalid index " ++ natStr idx ++ " for backreferenced T type code!"))
       ∧ isInvalidBackrefError
           (.valueError ("Invalid index " ++ natStr idx ++ " for backreferenced T type code!"))
         = true)
    ∧ (∀ (st st2 : PState) (cur cur2 : Cursor) (idx : Nat),
       readNumberM true st cur = .ok idx st2 cur2 →
       idx < st2.typevec.length →
       (demangleBackrefType st cur).okOf = st2.typevec.get? idx)
    ∧ (∀ (st st2 : PState) (cur cur2 : Cursor) (idx : Nat),
       readNumberWithUnderscoresM st cur = .ok idx st2 cur2 →
       st2.ktypes.length ≤ idx →
       (demangleKtype st cur).errOf =
         some (.valueError
           ("Invalid index " ++ natStr idx ++ " for backreferenced K-type qualified name!"))
       ∧ isInvalidBackrefError
           (.valueError
             ("Invalid index " ++ natStr idx ++ " for backreferenced K-type qualified name!"))
         = true)
    ∧ (∀ (st st2 : PState) (cur cur2 : Cursor) (idx : Nat),
       readNumberWithUnderscoresM st cur = .ok idx st2 cur2 →
       idx < st2.ktypes.length →
       (demangleKtype st cur).okOf = st2.ktypes.get? idx) := by
  refine ⟨?_, ?_, ?_, ?_⟩
  · intro st st2 cur cur2 idx h hle
    refine ⟨?_, rfl⟩
    show (M.bind (readNumberM true) _ st cur).errOf = _
    simp only [M.bind, M.bind_eq, h, getSt]
    rw [dif_pos hle]
    rfl
  · intro st st2 cur cur2 idx h hlt
    show (M.bind (readNumberM true) _ st cur).okOf = _
    simp only [M.bind, M.bind_eq, h, getSt]
    rw [dif_neg (Nat.not_le_of_lt hlt)]
    show (M.pure _ _ _ : PRes CxxType).okOf = _
    simp [M.pure, PRes.okOf, List.get?_eq_get hlt]
  · intro st st2 cur cur2 idx h hle
    refine ⟨?_, rfl⟩
    show (M.bind readNumberWithUnderscoresM _ st cur).errOf = _
    simp only [M.bind, M.bind_eq, h, getSt]
    rw [dif_pos hle]
    rfl
  · intro st st2 cur cur2 idx h hlt
    show (M.bind readNumberWithUnderscoresM _ st cur).okOf = _
    simp only [M.bind, M.bind_eq, h, getSt]
    rw [dif_neg (Nat.not_le_of_lt hlt)]
    show (M.pure _ _ _ : PRes CxxName).okOf = _
    simp [M.pure, PRes.okOf, List.get?_eq_get hlt]

/-- A parser state with one remembered argument type and one remembered
qualified name (for the in-range backreference witnesses). -/
def c3State : PState :=
  { initPState with
      typevec := [CxxType.mk [mkTerm .void]]
      ktypes := [CxxName.mk [] none] }

/-- C3, witness: the bounds theorem applied at index `0` against empty
tables (out of range) and against `c3State` (in range). -/
theorem C3_T_and_K_backref_bounds_witness :
    ((demangleBackrefType initPState ⟨"0i".data, 0⟩).errOf =
        some (.valueError ("Invalid index " ++ natStr 0 ++ " for backreferenced T type code!"))
      ∧ isInvalidBackrefError
          (.valueError ("Invalid index " ++ natStr 0 ++ " for backreferenced T type code!"))
        = true)
    ∧ (demangleBackrefType c3State ⟨"0i".data, 0⟩).okOf = c3State.typevec.get? 0
    ∧ ((demangleKtype initPState ⟨"0i".data, 0⟩).errOf =
        some (.valueError
          ("Invalid index " ++ natStr 0 ++ " for backreferenced K-type qualified name!"))
      ∧ isInvalidBackrefError
          (.valueError
            ("Invalid index " ++ natStr 0 ++ " for backreferenced K-type qualified name!"))
        = true)
    ∧ (demangleKtype c3State ⟨"0i".data, 0⟩).okOf = c3State.ktypes.get? 0 :=
  ⟨C3_T_and_K_backref_bounds.1 initPState initPState ⟨"0i".data, 0⟩ ⟨"0i".data, 1⟩ 0
      rfl (Nat.le_refl 0),
   C3_T_and_K_backref_bounds.2.1 c3State c3State ⟨"0i".data, 0⟩ ⟨"0i".data, 1⟩ 0
      rfl (by decide),
   C3_T_and_K_backref_bounds.2.2.1 initPState initPState ⟨"0i".data, 0⟩ ⟨"0i".data, 1⟩ 0
      rfl (Nat.le_refl 0),
   C3_T_and_K_backref_bounds.2.2.2 c3State c3State ⟨"0i".data, 0⟩ ⟨"0i".data, 1⟩ 0
      rfl (by decide)⟩

/-- One-step unfolding of the renderer family. -/
theorem renderAt_succ (n : Nat) : renderAt (n + 1) = renderStep (renderAt n) :=
  rfl

/-- One-step unfolding of the engine family. -/
theorem engineAt_succ (n : Nat) : engineAt (n + 1) = engineStep n (engineAt n) :=
  rfl

/-- `CxxType.format` with the heap effects made explicit: the string is
computed exactly as in `CxxType.format` (whose `from_type` reads a
`copy.copy` of `typ.terms`, and whose `apply` loop mutates only the
component-local term lists), and the `CxxType` as rendering leaves it behind
is returned alongside. -/
def typeFormatMut (fuel : Nat) (typ : CxxType) (identifier : Option CxxTerm) :
    Except PyExc (List Char × CxxType) :=
  match fuel with
  | 0 => .error .fuel
  | fuel + 1 =>
    match fromType fuel typ identifier with
    | .error e => .error e
    | .ok comps =>
      match formatFold fuel comps [] none with
      | .error e => .error e
      | .ok s => .ok (s, typ)

/-- C10: rendering is a pure read.  A successful `format` leaves the type's
term list unchanged and agrees with `CxxType.format`; re-rendering the
left-behind type yields the identical string; and this holds even though the
component-level `__str__` genuinely mutates (the last conjunct shows the
pointer component of `[CONST, POINTER, CONST, UNSIGNED, INT]` coming back
with its term list reversed, while the type-level double render is stable
at `"const unsigned int * const"`). -/
theorem C10_format_is_pure_read :
    (∀ (fuel : Nat) (typ : CxxType) (identifier : Option CxxTerm) (s : List Char)
       (t2 : CxxType),
       typeFormatMut fuel typ identifier = .ok (s, t2) →
       t2 = typ ∧ typeFormat fuel typ identifier = .ok s
         ∧ typeFormatMut fuel t2 identifier = .ok (s, t2))
    ∧ typeFormatMut 50 c7Type none = .ok ("const unsigned int * const".data, c7Type)
    ∧ (declCompStrMut 50 ⟨DeclKind.pointer, [mkTerm .const, mkTerm .pointer]⟩).map
        (fun r => r.2.terms.map CxxTerm.kind) =
      .ok [CxxTermKind.pointer, CxxTermKind.const] := by
  refine ⟨?_, rfl, rfl⟩
  intro fuel typ identifier s t2 h
  match fuel with
  | 0 => exact absurd h (by simp [typeFormatMut])
  | fuel + 1 =>
    have hfmt : typeFormat (fuel + 1) typ identifier =
        match fromType fuel typ identifier with
        | .error e => .error e
        | .ok comps => formatFold fuel comps [] none := rfl
    simp only [typeFormatMut] at h
    match hft : fromType fuel typ identifier with
    | .error e => rw [hft] at h; exact absurd h (by simp)
    | .ok comps =>
      simp only [hft] at h hfmt
      match hff : formatFold fuel comps [] none with
      | .error e => simp only [hff] at h; exact absurd h (by simp)
      | .ok s2 =>
        simp only [hff] at h hfmt
        have hs : s2 = s ∧ typ = t2 := by
          cases h
          exact ⟨rfl, rfl⟩
        obtain ⟨hs2, ht2⟩ := hs
        subst hs2
        subst ht2
        refine ⟨rfl, hfmt, ?_⟩
        simp only [typeFormatMut, hft, hff]

/-- C10, witness: the purity theorem applied to the pointer-with-qualifiers
type at fuel 50. -/
theorem C10_format_is_pure_read_witness :
    c7Type = c7Type
    ∧ typeFormat 50 c7Type none = .ok "const unsigned int * const".data
    ∧ typeFormatMut 50 c7Type none = .ok ("const unsigned int * const".data, c7Type) :=
  C10_format_is_pure_read.1 50 c7Type none "const unsigned int * const".data c7Type rfl

/-- C9, counterexample: `parse("__thunk_4__imp__foo__Fi")` succeeds and
returns a symbol with *both* `is_dll_imported` and `is_virtual_thunk` set —
the virtual-thunk branch of `_gnu_special` mutates the flags of an
already-validated symbol without re-running `__post_init__`, so a
constructed symbol can violate the mutual-exclusion part of the data-model
invariant. -/
theorem C9_counterexample_thunk_mutation_bypasses_validation :
    (match parse 40 "__thunk_4__imp__foo__Fi".data with
     | .ok s => s.is_dll_imported && s.is_virtual_thunk && !(symbolClaimInvariant s)
     | .error _ => false) = true := by
  decide

/-- C9, amended: every symbol accepted by the `__post_init__` checks (the
checked constructor `mkCxxSymbol`) satisfies the invariant at construction
time: at most one mutually-exclusive kind flag, a type present unless static
data/vtable/global x-tor, a delta on every virtual thunk, and on a non-thunk
a delta that is absent or zero (Python's falsiness check); but field
mutation after construction is unchecked, so `parse` can return a symbol
with two exclusive flags set (see the counterexample). -/
theorem C9_postinit_validates (name : CxxTerm) (type : Option CxxType)
    (tin tif vt stc gc gd dll thunk : Bool) (delta : Option Int) (sym : CxxSymbol) :
    mkCxxSymbol name type tin tif vt stc gc gd dll thunk delta = .ok sym →
    symbolXorCount sym ≤ 1
    ∧ (sym.type.isNone = true → (sym.is_static || sym.is_vtable || sym.is_global_xtor) = true)
    ∧ (sym.is_virtual_thunk = true → sym.vthunk_delta.isSome = true)
    ∧ (sym.is_virtual_thunk = false →
        sym.vthunk_delta = none ∨ sym.vthunk_delta = some 0) := by
  intro h
  simp only [mkCxxSymbol] at h
  split at h
  · exact absurd h (by simp)
  · split at h
    · exact absurd h (by simp)
    · split at h
      · exact absurd h (by simp)
      · split at h
        · exact absurd h (by simp)
        · split at h
          · exact absurd h (by simp)
          · rename_i h1 h2 h3 h4 h5
            cases h
            refine ⟨?_, ?_, ?_, ?_⟩
            · show (([tin, tif, vt, gc, gd, thunk, dll].filter id).length) ≤ 1
              by_cases hany : [tin, tif, vt, gc, gd, thunk, dll].any id = true
              · exact Nat.le_of_not_lt (fun hgt => h1 ⟨hany, hgt⟩)
              · have hnil : List.filter id [tin, tif, vt, gc, gd, thunk, dll] = [] := by
                  rw [List.filter_eq_nil_iff]
                  intro a ha hpa
                  exact hany (List.any_eq_true.mpr ⟨a, ha, hpa⟩)
                simp [hnil]
            · intro hnone
              show (stc || vt || (gc || gd)) = true
              by_contra hflags
              exact h3 ⟨hnone, fun hc => hflags hc⟩
            · intro hthunk
              simp only [CxxSymbol.is_virtual_thunk] at hthunk
              show delta.isSome = true
              by_contra hds
              exact h4 ⟨hthunk, by cases delta <;> simp_all⟩
            · intro hthunk
              simp only [CxxSymbol.is_virtual_thunk] at hthunk
              show delta = none ∨ delta = some 0
              by_contra hd
              exact h5 ⟨by simp [hthunk], hd⟩

/-- The name used by the C9 witness construction. -/
def c9Name : CxxTerm :=
  CxxTerm.make_name [.qname (CxxName.mk "x".data none)]

/-- C9, witness: the validation theorem applied to a concrete successful
construction (a plain symbol of type `void`). -/
theorem C9_postinit_validates_witness :
    symbolXorCount (CxxSymbol.mk c9Name (some (CxxType.mk [mkTerm .void]))
        false false false false false false false false none) ≤ 1
    ∧ ((CxxSymbol.mk c9Name (some (CxxType.mk [mkTerm .void]))
        false false false false false false false false none).type.isNone = true →
        ((CxxSymbol.mk c9Name (some (CxxType.mk [mkTerm .void]))
          false false false false false false false false none).is_static
         || (CxxSymbol.mk c9Name (some (CxxType.mk [mkTerm .void]))
          false false false false false false false false none).is_vtable
         || (CxxSymbol.mk c9Name (some (CxxType.mk [mkTerm .void]))
          false false false false false false false false none).is_global_xtor) = true)
    ∧ ((CxxSymbol.mk c9Name (some (CxxType.mk [mkTerm .void]))
        false false false false false false false false none).is_virtual_thunk = true →
        (CxxSymbol.mk c9Name (some (CxxType.mk [mkTerm .void]))
          false false false false false false false false none).vthunk_delta.isSome = true)
    ∧ ((CxxSymbol.mk c9Name (some (CxxType.mk [mkTerm .void]))
        false false false false false false false false none).is_virtual_thunk = false →
        (CxxSymbol.mk c9Name (some (CxxType.mk [mkTerm .void]))
          false false false false false false false false none).vthunk_delta = none
        ∨ (CxxSymbol.mk c9Name (some (CxxType.mk [mkTerm .void]))
          false false false false false false false false none).vthunk_delta = some 0) :=
  C9_postinit_validates c9Name (some (CxxType.mk [mkTerm .void]))
    false false false false false false false false none _ rfl

/-- C2, counterexample: virtual-thunk unwrapping does *not* run with fresh
backreference tables.  `_gnu_special`'s thunk branch re-enters `_parse` on
the same engine object, and on `"__thunk_4_foo__3Bari"` the nested parse of
`"foo__3Bari"` writes the class `Bar` into the shared B/K/T tables: the
state coming out of `_gnu_special` has nonempty tables, although they were
empty on entry — the outer parse's tables are changed by the nested
parse. -/
theorem C2_counterexample_thunk_shares_tables :
    (match gnuSpecial 40 initPState ⟨"__thunk_4_foo__3Bari".data, 0⟩ with
     | .ok (.symb s) st _ =>
         s.is_virtual_thunk && decide (s.vthunk_delta = some (-4))
           && (st.btypes.length != initPState.btypes.length)
           && (st.ktypes.length != initPState.ktypes.length)
           && (st.typevec.length != initPState.typevec.length)
     | _ => false) = true := by
  decide

/-- C2, amended: the *literal symbol-reference* sub-parse is the one that
runs on a brand-new engine: on its nested-symbol path (cursor not at a `Q`)
`_demangle_symbol_ref_value` leaves the outer parser state — in particular
its B/K/T tables — completely unchanged (first conjunct).  The ctor/dtor
counters and static flag are saved at `_parse` entry and restored when the
nested parse completes through the signature path; in the thunk
counterexample run they indeed come back unchanged (second conjunct).  The
thunk path itself, however, shares the outer tables (see the
counterexample). -/
theorem C2_symbol_ref_isolation_and_counter_restore :
    (∀ (f : Nat) (st st2 : PState) (cur cur2 : Cursor) (v : CxxValue),
       (Token.peek cur 0).kind ≠ TokKind.qualified →
       demangleSymbolRefValue (f + 1) st cur = .ok v st2 cur2 →
       st2 = st)
    ∧ (match gnuSpecial 40 initPState ⟨"__thunk_4_foo__3Bari".data, 0⟩ with
       | .ok _ st _ =>
           decide (st.ctor = initPState.ctor) && decide (st.dtor = initPState.dtor)
             && decide (st.static_type = initPState.static_type)
       | .err _ _ _ => false) = true := by
  constructor
  · intro f st st2 cur cur2 v hq h
    rw [show demangleSymbolRefValue (f + 1) =
          (engineStep f (engineAt f)).demangleSymbolRefValue from rfl] at h
    simp only [engineStep, M.bind_eq, M.bind, getCur, M.throw, liftE] at h
    rw [if_neg (by simpa using hq)] at h
    simp only [M.bind, readNumberM] at h
    match hpn : peekNumber cur with
    | none => simp only [hpn] at h; exact absurd h (by simp)
    | some (num, off) =>
      simp only [hpn, eq_self_iff_true, not_true, false_and, if_false] at h
      split at h
      · exact absurd h (by simp [M.throw])
      · simp only [M.bind, getCur] at h
        split at h
        · exact absurd h (by simp [M.throw])
        · cases hpf : (engineAt f).parseFresh (peekExactAt (cur.read (off : Int)).2 num 0) with
          | error e =>
            simp only [hpf] at h
            exact absurd h (by simp [M.throw])
          | ok sym =>
            simp only [hpf, M.bind, readExactM] at h
            split at h
            · rename_i a stA curA heq
              simp only [M.pure_eq, M.pure, Pure.pure] at h
              cases h
              split at heq
              · exact absurd heq (by simp)
              · cases heq
                rfl
            · exact absurd h (by simp)
  · decide

/-- C2, witness: the isolation statement applied to the concrete
symbol-reference literal `"5f__Fv"` (a five-character nested symbol
`f__Fv`): the sub-parse succeeds and hands back the outer state
untouched. -/
theorem C2_symbol_ref_isolation_witness :
    (match demangleSymbolRefValue 40 initPState ⟨"5f__Fv".data, 0⟩ with
     | .ok _ st2 _ => st2 = initPState
     | .err _ _ _ => False) := by
  have hok : (match demangleSymbolRefValue 40 initPState ⟨"5f__Fv".data, 0⟩ with
              | .ok _ _ _ => true
              | .err _ _ _ => false) = true := by decide
  split
  · rename_i v st2 cur2 heq
    exact C2_symbol_ref_isolation_and_counter_restore.1 39 initPState st2
      ⟨"5f__Fv".data, 0⟩ cur2 v (by decide) heq
  · rename_i e st2 cur2 heq
    rw [heq] at hok
    exact Bool.noConfusion hok


/-! ### C8 supporting lemmas: the virtual-thunk special form -/

theorem Cursor.read_ofNat (cur : Cursor) (n : Nat) :
    cur.read (n : Int)
      = (cur.remaining.take n, ⟨cur.s, cur.pos + (cur.remaining.take n).length⟩) := by
  unfold Cursor.read
  rw [if_neg (by omega)]
  rfl

theorem takeWhile_digit_run (ds : List Char) (c : Char) (tail : List Char)
    (hds : ds.all isDec = true) (hc : isDec c = false) :
    (ds ++ c :: tail).takeWhile isDec = ds := by
  induction ds with
  | nil => simp [List.takeWhile_cons, hc]
  | cons d ds ih =>
    simp only [List.all_cons, Bool.and_eq_true] at hds
    simp [List.takeWhile_cons, hds.1, ih hds.2]

theorem peekNumber_run (full : List Char) (pos : Nat) (ds : List Char) (c : Char)
    (tail : List Char) (hrem : full.drop pos = ds ++ c :: tail) (hne : ds ≠ [])
    (hds : ds.all isDec = true) (hc : isDec c = false) :
    peekNumber ⟨full, pos⟩ = some (digitsToNat ds, ds.length) := by
  unfold peekNumber Cursor.remaining
  simp only [hrem, takeWhile_digit_run ds c tail hds hc]
  rw [if_neg]
  simp [List.isEmpty_iff, hne]

theorem readNumberM_run (st : PState) (full : List Char) (pos : Nat) (ds : List Char)
    (c : Char) (tail : List Char) (hrem : full.drop pos = ds ++ c :: tail)
    (hne : ds ≠ []) (hds : ds.all isDec = true) (hc : isDec c = false) :
    readNumberM true st ⟨full, pos⟩
      = .ok (digitsToNat ds) st ⟨full, pos + ds.length⟩ := by
  unfold readNumberM
  simp only [peekNumber_run full pos ds c tail hrem hne hds hc, eq_self_iff_true,
    not_true, false_and, if_false, Cursor.read_ofNat, Cursor.remaining, hrem,
    List.take_left]

theorem tokKind_underscore (c : Char) (h : tokKindOfChar c = some TokKind.underscore) :
    c = '_' := by
  unfold tokKindOfChar at h
  by_cases h1 : c = 'C'
  · rw [if_pos h1] at h; exact absurd h (by decide)
  rw [if_neg h1] at h
  by_cases h2 : c = 'V'
  · rw [if_pos h2] at h; exact absurd h (by decide)
  rw [if_neg h2] at h
  by_cases h3 : c = 'u'
  · rw [if_pos h3] at h; exact absurd h (by decide)
  rw [if_neg h3] at h
  by_cases h4 : c = 'U'
  · rw [if_pos h4] at h; exact absurd h (by decide)
  rw [if_neg h4] at h
  by_cases h5 : c = 'S'
  · rw [if_pos h5] at h; exact absurd h (by decide)
  rw [if_neg h5] at h
  by_cases h6 : c = 'J'
  · rw [if_pos h6] at h; exact absurd h (by decide)
  rw [if_neg h6] at h
  by_cases h7 : c = 'v'
  · rw [if_pos h7] at h; exact absurd h (by decide)
  rw [if_neg h7] at h
  by_cases h8 : c = 'x'
  · rw [if_pos h8] at h; exact absurd h (by decide)
  rw [if_neg h8] at h
  by_cases h9 : c = 'l'
  · rw [if_pos h9] at h; exact absurd h (by decide)
  rw [if_neg h9] at h
  by_cases h10 : c = 'i'
  · rw [if_pos h10] at h; exact absurd h (by decide)
  rw [if_neg h10] at h
  by_cases h11 : c = 's'
  · rw [if_pos h11] at h; exact absurd h (by decide)
  rw [if_neg h11] at h
  by_cases h12 : c = 'b'
  · rw [if_pos h12] at h; exact absurd h (by decide)
  rw [if_neg h12] at h
  by_cases h13 : c = 'c'
  · rw [if_pos h13] at h; exact absurd h (by decide)
  rw [if_neg h13] at h
  by_cases h14 : c = 'w'
  · rw [if_pos h14] at h; exact absurd h (by decide)
  rw [if_neg h14] at h
  by_cases h15 : c = 'd'
  · rw [if_pos h15] at h; exact absurd h (by decide)
  rw [if_neg h15] at h
  by_cases h16 : c = 'f'
  · rw [if_pos h16] at h; exact absurd h (by decide)
  rw [if_neg h16] at h
  by_cases h17 : c = 'p'
  · rw [if_pos h17] at h; exact absurd h (by decide)
  rw [if_neg h17] at h
  by_cases h18 : c = 'R'
  · rw [if_pos h18] at h; exact absurd h (by decide)
  rw [if_neg h18] at h
  by_cases h19 : c = 'O'
  · rw [if_pos h19] at h; exact absurd h (by decide)
  rw [if_neg h19] at h
  by_cases h20 : c = 'A'
  · rw [if_pos h20] at h; exact absurd h (by decide)
  rw [if_neg h20] at h
  by_cases h21 : c = 'F'
  · rw [if_pos h21] at h; exact absurd h (by decide)
  rw [if_neg h21] at h
  by_cases h22 : c = 'Q'
  · rw [if_pos h22] at h; exact absurd h (by decide)
  rw [if_neg h22] at h
  by_cases h23 : c = 'K'
  · rw [if_pos h23] at h; exact absurd h (by decide)
  rw [if_neg h23] at h
  by_cases h24 : c = 'B'
  · rw [if_pos h24] at h; exact absurd h (by decide)
  rw [if_neg h24] at h
  by_cases h25 : c = 'T'
  · rw [if_pos h25] at h; exact absurd h (by decide)
  rw [if_neg h25] at h
  by_cases h26 : c = 't'
  · rw [if_pos h26] at h; exact absurd h (by decide)
  rw [if_neg h26] at h
  by_cases h27 : c = 'H'
  · rw [if_pos h27] at h; exact absurd h (by decide)
  rw [if_neg h27] at h
  by_cases h28 : c = 'Z'
  · rw [if_pos h28] at h; exact absurd h (by decide)
  rw [if_neg h28] at h
  by_cases h29 : c = 'z'
  · rw [if_pos h29] at h; exact absurd h (by decide)
  rw [if_neg h29] at h
  by_cases h30 : c = 'X'
  · rw [if_pos h30] at h; exact absurd h (by decide)
  rw [if_neg h30] at h
  by_cases h31 : c = 'Y'
  · rw [if_pos h31] at h; exact absurd h (by decide)
  rw [if_neg h31] at h
  by_cases h32 : c = 'n'
  · rw [if_pos h32] at h; exact absurd h (by decide)
  rw [if_neg h32] at h
  by_cases h33 : c = 'e'
  · rw [if_pos h33] at h; exact absurd h (by decide)
  rw [if_neg h33] at h
  by_cases h34 : c = 'E'
  · rw [if_pos h34] at h; exact absurd h (by decide)
  rw [if_neg h34] at h
  by_cases h35 : c = 'N'
  · rw [if_pos h35] at h; exact absurd h (by decide)
  rw [if_neg h35] at h
  by_cases h36 : c = '_'
  · exact h36
  rw [if_neg h36] at h
  by_cases h37 : c = 'I'
  · rw [if_pos h37] at h; exact absurd h (by decide)
  rw [if_neg h37] at h
  by_cases h38 : c = 'G'
  · rw [if_pos h38] at h; exact absurd h (by decide)
  rw [if_neg h38] at h
  by_cases h39 : c = 'M'
  · rw [if_pos h39] at h; exact absurd h (by decide)
  rw [if_neg h39] at h
  by_cases h40 : c = 'm'
  · rw [if_pos h40] at h; exact absurd h (by decide)
  rw [if_neg h40] at h
  by_cases h41 : c = 'W'
  · rw [if_pos h41] at h; exact absurd h (by decide)
  rw [if_neg h41] at h
  exact absurd h (by decide)

theorem fromChars_not_underscore (c : Char) (hc : ¬ c = '_') :
    (Token.from_chars [c]).is_underscore = false := by
  unfold Token.from_chars
  cases hk : tokKindOfChar c with
  | none => simp only [hk]; split_ifs <;> rfl
  | some k =>
    simp only [hk]
    cases k <;> first | rfl | exact absurd (tokKind_underscore c hk) hc


theorem special_peek_thunk (t : List Char) :
    Special.peek ⟨['_', '_', 't', 'h', 'u', 'n', 'k', '_'] ++ t, 0⟩ = ⟨.vthunk, ['_', '_', 't', 'h', 'u', 'n', 'k', '_']⟩ := rfl

theorem readExact_thunk_pre (st : PState) (t : List Char) :
    readExactM ((['_', '_', 't', 'h', 'u', 'n', 'k', '_'] : List Char).length : Int) st ⟨['_', '_', 't', 'h', 'u', 'n', 'k', '_'] ++ t, 0⟩
      = .ok ['_', '_', 't', 'h', 'u', 'n', 'k', '_'] st ⟨['_', '_', 't', 'h', 'u', 'n', 'k', '_'] ++ t, 8⟩ := rfl

theorem length_thunk_pre_append (ds : List Char) :
    ((['_', '_', 't', 'h', 'u', 'n', 'k', '_'] : List Char) ++ ds).length = 8 + ds.length := by
  simp [List.length_append]
  omega

theorem Token.peek_head (full : List Char) (p : Nat) (c : Char) (tail : List Char)
    (hrem : full.drop p = c :: tail) :
    Token.peek ⟨full, p⟩ 0 = Token.from_chars [c] := by
  unfold Token.peek peekAt
  have h0 : (((p : Nat) : Int) + 0).toNat = p := by omega
  rw [h0, hrem]
  rfl

theorem readExact_one (st : PState) (full : List Char) (p : Nat) (c : Char)
    (tail : List Char) (hrem : full.drop p = c :: tail) :
    readExactM 1 st ⟨full, p⟩ = .ok [c] st ⟨full, p + 1⟩ := by
  unfold readExactM Cursor.read Cursor.remaining
  rw [if_neg (by omega)]
  simp only [hrem]
  rfl

theorem drop_after_delta (ds : List Char) (c : Char) (tail : List Char) :
    ((['_', '_', 't', 'h', 'u', 'n', 'k', '_'] : List Char) ++ (ds ++ c :: tail)).drop (8 + ds.length) = c :: tail := by
  rw [← List.append_assoc]
  rw [show (8 : Nat) + ds.length = ((['_', '_', 't', 'h', 'u', 'n', 'k', '_'] : List Char) ++ ds).length from
        (length_thunk_pre_append ds).symm]
  exact List.drop_left _ _

theorem gnuSpecial_thunk_eval (f : Nat) (st : PState) (ds : List Char) (c : Char)
    (tail : List Char) (hne : ds ≠ []) (hds : ds.all isDec = true)
    (hc : isDec c = false) :
    (engineStep f (engineAt f)).gnuSpecial st ⟨"__thunk_".data ++ (ds ++ c :: tail), 0⟩ =
      if c = '_' then
        M.bind (engineAt f).parseRec
          (fun sym => M.pure (GSRes.symb (sym.setVthunk (-(digitsToNat ds : Int)))))
          st ⟨"__thunk_".data ++ (ds ++ c :: tail), 8 + ds.length + 1⟩
      else
        PRes.err (.assertionError
          "Expected underscore after reading delta for virtual function thunk!")
          st ⟨"__thunk_".data ++ (ds ++ c :: tail), 8 + ds.length⟩ := by
  have hremL : ((['_', '_', 't', 'h', 'u', 'n', 'k', '_'] : List Char) ++ (ds ++ c :: tail)).drop 8 = ds ++ c :: tail := rfl
  have hrem2L := drop_after_delta ds c tail
  have hReadNum := readNumberM_run st ((['_', '_', 't', 'h', 'u', 'n', 'k', '_'] : List Char) ++ (ds ++ c :: tail)) 8 ds c tail
    hremL hne hds hc
  have hTok := Token.peek_head ((['_', '_', 't', 'h', 'u', 'n', 'k', '_'] : List Char) ++ (ds ++ c :: tail)) (8 + ds.length) c tail
    hrem2L
  simp only [engineStep, M.bind_eq, M.bind, getCur]
  rw [special_peek_thunk]
  rw [if_neg (by decide), if_neg (by decide), if_neg (by decide), if_neg (by decide),
    if_pos (show SpecialKind.vthunk = SpecialKind.vthunk from rfl)]
  simp only [M.bind, getCur, readExact_thunk_pre, hReadNum, hTok]
  by_cases hcu : c = '_'
  · subst hcu
    rw [if_pos rfl]
    rw [if_neg (show ¬ ¬ ((Token.from_chars ['_']).is_underscore = true) from by decide)]
    have hRead1 := readExact_one st ((['_', '_', 't', 'h', 'u', 'n', 'k', '_'] : List Char) ++ (ds ++ '_' :: tail))
      (8 + ds.length) '_' tail hrem2L
    simp only [M.bind, hRead1, M.pure_eq, M.pure, Pure.pure]
  · rw [if_neg hcu]
    rw [fromChars_not_underscore c hcu]
    rw [if_pos (show ¬ (false = true) from by decide)]
    rfl


theorem parse_thunk_ok (f : Nat) (ds rest : List Char) (sym : CxxSymbol)
    (st2 : PState) (cur2 : Cursor) (hne : ds ≠ []) (hds : ds.all isDec = true)
    (hok : (engineAt f).parseRec initPState
        ⟨"__thunk_".data ++ (ds ++ '_' :: rest), 8 + ds.length + 1⟩ = .ok sym st2 cur2)
    (hfull : cur2.remaining.isEmpty = true) :
    parse (f + 2) ("__thunk_".data ++ (ds ++ '_' :: rest))
      = .ok (sym.setVthunk (-(digitsToNat ds : Int))) := by
  rw [show "__thunk_".data = (['_', '_', 't', 'h', 'u', 'n', 'k', '_'] : List Char) from rfl] at hok
  rw [show initPState = (⟨[], [], [], none, false, false, false, 0, 0, 0⟩ : PState) from rfl]
    at hok
  have hGS := gnuSpecial_thunk_eval f
    (⟨[], [], [], none, false, false, false, 0, 0, 0⟩ : PState) ds '_' rest hne hds
    (by decide)
  rw [show "__thunk_".data = (['_', '_', 't', 'h', 'u', 'n', 'k', '_'] : List Char) from rfl] at hGS
  rw [if_pos rfl] at hGS
  unfold parse GNU2Demangler_parse
  rw [show parseRec (f + 2) = (engineStep (f + 1) (engineAt (f + 1))).parseRec from rfl]
  simp only [engineStep, M.bind_eq, M.bind, getSt, setSt, tellM, PState.reset, initPState,
    tryAll]
  rw [engineAt_succ f]
  rw [hGS]
  simp only [M.bind, hok, M.pure_eq, M.pure, Pure.pure, hfull]
  simp

theorem gnuSpecial_thunk_missing_sep (g : Nat) (st : PState) (ds tail : List Char)
    (c : Char) (hne : ds ≠ []) (hds : ds.all isDec = true) (hc : isDec c = false)
    (hcu : ¬ c = '_') :
    gnuSpecial (g + 1) st ⟨"__thunk_".data ++ (ds ++ c :: tail), 0⟩
      = .err (.assertionError
            "Expected underscore after reading delta for virtual function thunk!")
          st ⟨"__thunk_".data ++ (ds ++ c :: tail), 8 + ds.length⟩ := by
  have hGS := gnuSpecial_thunk_eval g st ds c tail hne hds hc
  rw [if_neg hcu] at hGS
  exact hGS

/-- C8: an input `__thunk_<digits>_<rest>` whose remainder `<rest>` parses as a
full symbol demangles to that symbol with the virtual-thunk flag set and the
delta equal to minus the digits value; and when the character after the delta
digits is not the underscore separator, `_gnu_special` raises the
missing-underscore assertion. -/
theorem C8_virtual_thunk_unwrapping :
    (∀ (f : Nat) (ds rest : List Char) (sym : CxxSymbol) (st2 : PState) (cur2 : Cursor),
        ds ≠ [] → ds.all isDec = true →
        (engineAt f).parseRec initPState
          ⟨"__thunk_".data ++ (ds ++ '_' :: rest), 8 + ds.length + 1⟩ = .ok sym st2 cur2 →
        cur2.remaining.isEmpty = true →
        parse (f + 2) ("__thunk_".data ++ (ds ++ '_' :: rest))
          = .ok (sym.setVthunk (-(digitsToNat ds : Int))))
    ∧ (∀ (g : Nat) (st : PState) (ds tail : List Char) (c : Char),
        ds ≠ [] → ds.all isDec = true → isDec c = false → ¬ c = '_' →
        (gnuSpecial (g + 1) st ⟨"__thunk_".data ++ (ds ++ c :: tail), 0⟩).errOf
          = some (.assertionError
              "Expected underscore after reading delta for virtual function thunk!")) := by
  constructor
  · intro f ds rest sym st2 cur2 hne hds hok hfull
    exact parse_thunk_ok f ds rest sym st2 cur2 hne hds hok hfull
  · intro g st ds tail c hne hds hc hcu
    rw [gnuSpecial_thunk_missing_sep g st ds tail c hne hds hc hcu]
    rfl

/-- C8, witness: `__thunk_4_foo__Fi` demangles successfully (to
`foo(int)` with a `-4` thunk delta), and `__thunk_4Xfoo__Fi` (underscore
separator replaced by `X`) raises the missing-underscore assertion. -/
theorem C8_virtual_thunk_witness :
    (parse 42 ("__thunk_4_foo__Fi".data)).toOption.isSome = true
    ∧ (gnuSpecial 41 initPState ⟨"__thunk_4Xfoo__Fi".data, 0⟩).errOf
        = some (.assertionError
            "Expected underscore after reading delta for virtual function thunk!") := by
  constructor
  · have hok : (match (engineAt 40).parseRec initPState ⟨"__thunk_4_foo__Fi".data, 10⟩ with
        | .ok _ _ cur2 => cur2.remaining.isEmpty
        | .err _ _ _ => false) = true := by decide
    cases hp : (engineAt 40).parseRec initPState ⟨"__thunk_4_foo__Fi".data, 10⟩ with
    | ok sym st2 cur2 =>
      rw [hp] at hok
      have h := C8_virtual_thunk_unwrapping.1 40 ['4'] ("foo__Fi".data) sym st2 cur2
        (by decide) (by decide) hp hok
      rw [show ("__thunk_4_foo__Fi".data)
            = "__thunk_".data ++ (['4'] ++ '_' :: "foo__Fi".data) from rfl]
      rw [h]
      rfl
    | err e st2 cur2 =>
      rw [hp] at hok
      simp at hok
  · exact C8_virtual_thunk_unwrapping.2 40 initPState ['4'] ("foo__Fi".data) 'X'
      (by decide) (by decide) (by decide) (by decide)

end Gnu2
